import Mathlib

/-!
Verification development for the AutoStatAgent analysis core
(`agents/hypothesis_testing.py`, `agents/question_generator.py`,
`agents/answer_generator.py`).

The Python code is shallowly embedded: pure control flow, string
construction, dispatch and threshold logic are translated directly;
calls into pandas/scipy numerics (shapiro, the test statistics,
skew/kurtosis/quantile, float formatting) are abstracted into an
`Oracle` record of deterministic functions, since their values are
irrelevant to the control-flow properties under scrutiny.  Machine
floats are modelled as `Rat`.
-/

namespace AutoStat

/-! ### String utilities

Models of the Python string operations used by the three modules:
`str.lower`, the substring test `kw in s`, the word-boundary regexes
`\bword\b` used by `answer_questions`' skip list, and the quoted-name
extraction regex `'([^']+)'` of `extract_columns_from_question`.
All question text involved is ASCII apart from `Cramér’s` (whose
apostrophe is U+2019, not the ASCII quote) and the em-dash of the trend
placeholder, so ASCII case-mapping and ASCII word characters are
faithful on every string the program builds. -/

def quoteChar : Char := '\''

def noQuote (s : String) : Prop := quoteChar ∉ s.data

instance (s : String) : Decidable (noQuote s) :=
  inferInstanceAs (Decidable (quoteChar ∉ s.data))

def lowerStr (s : String) : String := ⟨s.data.map Char.toLower⟩

def upperStr (s : String) : String := ⟨s.data.map Char.toUpper⟩

/-- Python `w in s` (substring containment) on character lists. -/
def hasSubChars (w : List Char) : List Char → Bool
  | [] => w.isEmpty
  | c :: cs => w.isPrefixOf (c :: cs) || hasSubChars w cs

def hasSub (w s : String) : Bool := hasSubChars w.data s.data

/-- Python regex word character `\w` (ASCII fragment). -/
def isWordChar (c : Char) : Bool := c.isAlphanum || c = '_'

def wbAfterOk (w s : List Char) : Bool :=
  match s.drop w.length with
  | [] => true
  | c :: _ => !isWordChar c

/-- Scan for an occurrence of `w` with `\b` boundaries on both sides;
`prev` is the character just before the current position. -/
def wbScan (w : List Char) : Option Char → List Char → Bool
  | _, [] => false
  | prev, c :: cs =>
    ((match prev with
      | Option.none => true
      | Option.some p => !isWordChar p)
      && w.isPrefixOf (c :: cs) && wbAfterOk w (c :: cs)) || wbScan w (Option.some c) cs

/-- Python `re.search(r"\b" + w + r"\b", s)` as a Boolean. -/
def wbMatch (w s : String) : Bool := wbScan w.data Option.none s.data

/-- State of the left-to-right scan implementing `re.findall(r"'([^']+)'", q)`:
either outside any quoted region, or inside one with the (reversed)
content accumulated so far. -/
inductive ScanSt
  | outside
  | inside (acc : List Char)

/-- Left-to-right scan equivalent to the regex engine's behaviour on
`'([^']+)'`: an opening quote immediately followed by another quote
fails to match (the `+` needs at least one character) and the second
quote is retried as an opener; a quoted run with no closing quote never
matches. -/
def extractAux : ScanSt → List Char → List (List Char)
  | _, [] => []
  | ScanSt.outside, c :: cs =>
    if c = quoteChar then extractAux (ScanSt.inside []) cs else extractAux ScanSt.outside cs
  | ScanSt.inside acc, c :: cs =>
    if c = quoteChar then
      if acc.isEmpty then extractAux (ScanSt.inside []) cs
      else acc.reverse :: extractAux ScanSt.outside cs
    else extractAux (ScanSt.inside (c :: acc)) cs

/-- Source: `AnswerGenerator.extract_columns_from_question`:
`re.findall(r"'([^']+)'", q)`. -/
def extract_columns_from_question (q : String) : List String :=
  (extractAux ScanSt.outside q.data).map List.asString

/-! ### Data model

A cleaned pandas DataFrame: an ordered list of named, dtype-tagged
columns of equal length.  Missing entries (`NaN`/`NaT`) are `none`. -/

inductive ColData
  | num (vals : List (Option Rat))
  | cat (vals : List (Option String))
  | dt (vals : List (Option Int))
deriving DecidableEq

structure Column where
  name : String
  data : ColData
deriving DecidableEq

abbrev Df := List Column

/-- Source: `df[c]`: raises `KeyError(c)` when absent; `str(KeyError('x'))` is
`"'x'"`, which is the message interpolated by the error handler. -/
def dfGet (df : Df) (c : String) : Except String Column :=
  match df.find? (fun col => col.name == c) with
  | Option.some col => Except.ok col
  | Option.none => Except.error ("'" ++ c ++ "'")

/-- Source: `pd.api.types.is_numeric_dtype` on our dtype tags. -/
def isNumericCol (c : Column) : Bool :=
  match c.data with
  | ColData.num _ => true
  | _ => false

/-- Source: `is_categorical_dtype(col) or col.dtype == object` on our tags. -/
def isCatCol (c : Column) : Bool :=
  match c.data with
  | ColData.cat _ => true
  | _ => false

def isDtCol (c : Column) : Bool :=
  match c.data with
  | ColData.dt _ => true
  | _ => false

def numData : ColData → Option (List (Option Rat))
  | ColData.num vs => Option.some vs
  | _ => Option.none

def colLen : ColData → Nat
  | ColData.num vs => vs.length
  | ColData.cat vs => vs.length
  | ColData.dt vs => vs.length

/-- Source: `len(df)` (row count; all columns share it). -/
def nRows (df : Df) : Nat :=
  match df with
  | [] => 0
  | c :: _ => colLen c.data

/-- Values of a column rendered as grouping/cross-tab keys.  Rat and Int
renderings are injective, so key equality coincides with value
equality, which is all grouping uses. -/
def cellKeys : ColData → List (Option String)
  | ColData.cat vs => vs
  | ColData.num vs => vs.map (fun o => o.map (fun q => toString q))
  | ColData.dt vs => vs.map (fun o => o.map (fun i => toString i))

/-- Distinct non-missing keys of a grouping column.  pandas sorts group
keys; we keep first-occurrence order, on which no property below
depends (group count and per-group contents are order-insensitive). -/
def groupKeys (catVals : List (Option String)) : List String :=
  (catVals.filterMap id).dedup

/-- Source: `[group[num_col].dropna() for _, group in df.groupby(cat_col, observed=True)]`:
one list of non-missing numeric values per distinct key of the
grouping column (groups that become empty after `dropna` are kept). -/
def groupsOf (catVals : List (Option String)) (numVals : List (Option Rat)) :
    List (List Rat) :=
  (groupKeys catVals).map (fun k =>
    (catVals.zip numVals).filterMap (fun p => if p.1 = Option.some k then p.2 else Option.none))

/-- A heterogeneous cell, for row-level duplicate detection. -/
inductive Cell
  | cn (v : Option Rat)
  | cs (v : Option String)
  | cd (v : Option Int)
deriving DecidableEq

def cellsOf : ColData → List Cell
  | ColData.num vs => vs.map Cell.cn
  | ColData.cat vs => vs.map Cell.cs
  | ColData.dt vs => vs.map Cell.cd

def rowOf (df : Df) (i : Nat) : List Cell :=
  df.map (fun c => (cellsOf c.data).getD i (Cell.cn Option.none))

/-- Source: `df.duplicated().sum()`: rows equal to some earlier row (pandas
treats `NaN = NaN` as equal here, as does `Option` equality). -/
def dupRowCount (df : Df) : Nat :=
  (List.range (nRows df)).countP (fun i =>
    (List.range i).any (fun j => rowOf df j == rowOf df i))

/-- Source: `series.isnull().mean()`.  On a zero-length column pandas yields
`NaN`, which compares `False` against `0`; our `0/0 = 0` gives the same
branch behaviour everywhere it is used. -/
def missingFrac (d : ColData) : Rat :=
  (match d with
   | ColData.num vs => ((vs.countP (fun v => v.isNone)) : Rat)
   | ColData.cat vs => ((vs.countP (fun v => v.isNone)) : Rat)
   | ColData.dt vs => ((vs.countP (fun v => v.isNone)) : Rat)) / (colLen d : Rat)

def hasMissing (d : ColData) : Bool :=
  match d with
  | ColData.num vs => vs.any (fun v => v.isNone)
  | ColData.cat vs => vs.any (fun v => v.isNone)
  | ColData.dt vs => vs.any (fun v => v.isNone)

/-! ### Python dict values

The hypothesis-test functions return Python dicts; `format_test_result`
reads them back by string key with a default, so the dict must be
modelled as a genuine key/value list rather than a record. -/

inductive PyVal
  | s (v : String)
  | r (v : Rat)
  | pr (a b : String)
  | pynone
deriving DecidableEq

def PyDict := List (String × PyVal)

def dictGet (d : PyDict) (k : String) : Option PyVal :=
  (d.find? (fun kv => kv.1 == k)).map (fun kv => kv.2)

/-- Python `str()` of a dict value, as used by f-string interpolation in
`format_test_result` (only the `.s` case is ever reachable there). -/
def pyValStr : PyVal → String
  | PyVal.s v => v
  | PyVal.r v => toString v
  | PyVal.pr a b => "('" ++ a ++ "', '" ++ b ++ "')"
  | PyVal.pynone => "None"

/-- Source: `result.get(k, dflt)` followed by f-string rendering. -/
def dictGetStr (d : PyDict) (k dflt : String) : String :=
  match dictGet d k with
  | Option.some v => pyValStr v
  | Option.none => dflt

/-! ### The statistical oracle

Deterministic abstractions of the pandas/scipy numerical routines the
three modules call.  Each field stands for one library entry point;
randomness (`Series.sample`, which draws uniformly without replacement)
is modelled as a deterministic function of its arguments, which the
spec itself recommends (fixed seed for reproducibility). -/

structure Oracle where
  /-- Source: `series.sample(n)`: a size-`n` uniform subsample without replacement. -/
  sample : List Rat → Nat → List Rat
  /-- Source: `scipy.stats.shapiro(xs)[1]`: the normality-test p-value. -/
  shapiroP : List Rat → Rat
  /-- Source: `scipy.stats.ttest_ind(a, b, nan_policy='omit')` as `(stat, p)`. -/
  ttest : List Rat → List Rat → Rat × Rat
  /-- Source: `scipy.stats.mannwhitneyu(a, b, alternative="two-sided")`. -/
  mwu : List Rat → List Rat → Rat × Rat
  /-- Source: `scipy.stats.f_oneway(*groups)`. -/
  fOneway : List (List Rat) → Rat × Rat
  /-- Source: `scipy.stats.kruskal(*groups)`. -/
  kruskal : List (List Rat) → Rat × Rat
  /-- Source: `scipy.stats.pearsonr(x, y)` on equal-length inputs. -/
  pearson : List Rat → List Rat → Rat × Rat
  /-- Source: `scipy.stats.spearmanr(x, y)` on equal-length inputs. -/
  spearman : List Rat → List Rat → Rat × Rat
  /-- Source: `scipy.stats.chi2_contingency(pd.crosstab(a, b))` on the list of
  valid key pairs, as `(stat, p)`. -/
  chi2 : List (String × String) → Rat × Rat
  /-- Source: `HypothesisTesting._cramers_v` (involves a real square root). -/
  cramersV : List (String × String) → Rat
  /-- Source: `HypothesisTesting._cohens_d` (involves a real square root);
  `none` models the `np.nan` returned when the pooled std is zero. -/
  cohensD : List Rat → List Rat → Option Rat
  /-- Source: `df[a].corr(df[b], method=m)`: pairwise-complete correlation;
  `none` models a `NaN` result (`pd.notnull` fails). -/
  dfcorr : String → List (Option Rat) → List (Option Rat) → Option Rat
  /-- Source: `series.skew()` (missing entries ignored by pandas). -/
  skew : List (Option Rat) → Rat
  /-- Source: `series.kurtosis()`. -/
  kurt : List (Option Rat) → Rat
  /-- Source: `series.quantile(q)`. -/
  quantile : List (Option Rat) → Rat → Rat
  /-- Python `f"{x:.2f}"`. -/
  fmt2 : Rat → String
  /-- Python `f"{x:.1f}"`. -/
  fmt1 : Rat → String

/-! ### `agents/hypothesis_testing.py` -/

/-- Source: `HypothesisTesting._hypothesis_text`. -/
def hypothesis_text (testType col1 col2 : String) : String × String :=
  if testType = "t-test" then
    ("H₀: The mean of '" ++ col1 ++ "' is equal across the two groups in '" ++ col2 ++ "'.",
     "H₁: The mean of '" ++ col1 ++ "' is different across the two groups in '" ++ col2 ++ "'.")
  else if testType = "anova" then
    ("H₀: The mean of '" ++ col1 ++ "' is equal across all groups in '" ++ col2 ++ "'.",
     "H₁: At least one group mean of '" ++ col1 ++ "' in '" ++ col2 ++ "' is different.")
  else if testType = "mann-whitney" then
    ("H₀: The distribution of '" ++ col1 ++ "' is the same across the two groups in '" ++ col2 ++ "'.",
     "H₁: The distribution of '" ++ col1 ++ "' differs between the two groups in '" ++ col2 ++ "'.")
  else if testType = "kruskal" then
    ("H₀: The distribution of '" ++ col1 ++ "' is the same across all groups in '" ++ col2 ++ "'.",
     "H₁: At least one group distribution of '" ++ col1 ++ "' in '" ++ col2 ++ "' is different.")
  else if testType = "chi-square" then
    ("H₀: '" ++ col1 ++ "' and '" ++ col2 ++ "' are independent.",
     "H₁: '" ++ col1 ++ "' and '" ++ col2 ++ "' are not independent.")
  else if testType = "correlation" then
    ("H₀: There is no correlation between '" ++ col1 ++ "' and '" ++ col2 ++ "'.",
     "H₁: There is a correlation between '" ++ col1 ++ "' and '" ++ col2 ++ "'.")
  else ("", "")

/-- Source: `HypothesisTesting._eta_squared_anova` (pure rational arithmetic). -/
def eta_squared_anova (stat dfBetween dfWithin : Rat) : Rat :=
  stat * dfBetween / (stat * dfBetween + dfWithin)

/-- Source: `HypothesisTesting._is_normal`. -/
def is_normal (o : Oracle) (series : List Rat) : Bool :=
  if series.length < 3 then false
  else o.shapiroP (o.sample series (min 500 series.length)) > mkRat 1 20

/-- The `"significance"` entry: `"Significant" if p < alpha else "Not significant"`. -/
def significanceText (p alpha : Rat) : String :=
  if p < alpha then "Significant" else "Not significant"

/-- Source: `HypothesisTesting.test_numeric_categorical`.  Returns `Sum.inl`
for the plain-string return, `Sum.inr` for the result dict; `Except.error`
models an escaping exception (only reachable when a column is missing
or the target column is non-numeric, which the dispatcher rules out). -/
def test_numeric_categorical (o : Oracle) (df : Df) (catCol numCol : String)
    (alpha : Rat) : Except String (String ⊕ PyDict) := do
  let cc ← dfGet df catCol
  let nc ← dfGet df numCol
  match numData nc.data with
  | Option.none => Except.error "could not convert string to float"
  | Option.some nvals =>
    let groups := groupsOf (cellKeys cc.data) nvals
    match groups with
    | [] => Except.ok (Sum.inl "Not enough groups for hypothesis testing.")
    | [_] => Except.ok (Sum.inl "Not enough groups for hypothesis testing.")
    | [g1, g2] =>
      -- len(groups) == 2
      if [g1, g2].all (fun g => is_normal o g) then
        let sp := o.ttest g1 g2
        let effect := o.cohensD g1 g2
        let h := hypothesis_text "t-test" numCol catCol
        Except.ok (Sum.inr
          [("test", PyVal.s (upperStr "t-test")),
           ("columns", PyVal.pr numCol catCol),
           ("H0", PyVal.s h.1), ("H1", PyVal.s h.2),
           ("stat", PyVal.r sp.1), ("p_value", PyVal.r sp.2),
           ("alpha", PyVal.r alpha),
           ("significance", PyVal.s (significanceText sp.2 alpha)),
           ("effect_size", match effect with
             | Option.some e => PyVal.r e
             | Option.none => PyVal.pynone)])
      else
        let sp := o.mwu g1 g2
        let h := hypothesis_text "mann-whitney" numCol catCol
        Except.ok (Sum.inr
          [("test", PyVal.s (upperStr "mann-whitney")),
           ("columns", PyVal.pr numCol catCol),
           ("H0", PyVal.s h.1), ("H1", PyVal.s h.2),
           ("stat", PyVal.r sp.1), ("p_value", PyVal.r sp.2),
           ("alpha", PyVal.r alpha),
           ("significance", PyVal.s (significanceText sp.2 alpha)),
           ("effect_size", PyVal.pynone)])
    | gs =>
      -- len(groups) >= 3
      if gs.all (fun g => is_normal o g) then
        let sp := o.fOneway gs
        let effect := eta_squared_anova sp.1 ((gs.length : Rat) - 1)
          ((nRows df : Rat) - (gs.length : Rat))
        let h := hypothesis_text "anova" numCol catCol
        Except.ok (Sum.inr
          [("test", PyVal.s (upperStr "anova")),
           ("columns", PyVal.pr numCol catCol),
           ("H0", PyVal.s h.1), ("H1", PyVal.s h.2),
           ("stat", PyVal.r sp.1), ("p_value", PyVal.r sp.2),
           ("alpha", PyVal.r alpha),
           ("significance", PyVal.s (significanceText sp.2 alpha)),
           ("effect_size", PyVal.r effect)])
      else
        let sp := o.kruskal gs
        let h := hypothesis_text "kruskal" numCol catCol
        Except.ok (Sum.inr
          [("test", PyVal.s (upperStr "kruskal")),
           ("columns", PyVal.pr numCol catCol),
           ("H0", PyVal.s h.1), ("H1", PyVal.s h.2),
           ("stat", PyVal.r sp.1), ("p_value", PyVal.r sp.2),
           ("alpha", PyVal.r alpha),
           ("significance", PyVal.s (significanceText sp.2 alpha)),
           ("effect_size", PyVal.pynone)])

/-- Source: `HypothesisTesting.test_categorical_categorical`. -/
def test_categorical_categorical (o : Oracle) (df : Df) (cat1 cat2 : String)
    (alpha : Rat) : Except String (String ⊕ PyDict) := do
  let c1 ← dfGet df cat1
  let c2 ← dfGet df cat2
  -- pd.crosstab(df[cat1], df[cat2]) tabulates rows where both values
  -- are present; the table is empty iff there is no such row.
  let pairs := ((cellKeys c1.data).zip (cellKeys c2.data)).filterMap
    (fun p => match p with
      | (Option.some x, Option.some y) => Option.some (x, y)
      | _ => Option.none)
  if pairs.isEmpty then
    Except.ok (Sum.inl "Contingency table is empty or invalid.")
  else
    let sp := o.chi2 pairs
    let effect := o.cramersV pairs
    let h := hypothesis_text "chi-square" cat1 cat2
    Except.ok (Sum.inr
      [("test", PyVal.s "Chi-square"),
       ("columns", PyVal.pr cat1 cat2),
       ("H0", PyVal.s h.1), ("H1", PyVal.s h.2),
       ("stat", PyVal.r sp.1), ("p_value", PyVal.r sp.2),
       ("alpha", PyVal.r alpha),
       ("significance", PyVal.s (significanceText sp.2 alpha)),
       ("effect_size_cramers_v", PyVal.r effect)])

/-- Source: `scipy.stats.pearsonr`, per its documented contract: raises
`ValueError` when the inputs differ in length (`x and y must have the
same length`) or have fewer than 2 elements. -/
def pearsonrModel (o : Oracle) (xs ys : List Rat) : Except String (Rat × Rat) :=
  if xs.length ≠ ys.length then
    Except.error "x and y must have the same length."
  else if xs.length < 2 then
    Except.error "x and y must have length at least 2."
  else Except.ok (o.pearson xs ys)

/-- Source: `scipy.stats.spearmanr` on two 1-D samples: raises (`numpy` cannot
column-stack arrays of different lengths) when the lengths differ. -/
def spearmanrModel (o : Oracle) (xs ys : List Rat) : Except String (Rat × Rat) :=
  if xs.length ≠ ys.length then
    Except.error "all the input array dimensions must match exactly"
  else Except.ok (o.spearman xs ys)

/-- Source: `HypothesisTesting.test_numeric_numeric`.  The two series are
`dropna`-ed independently, so their lengths can differ, in which case
the correlation routine raises. -/
def test_numeric_numeric (o : Oracle) (df : Df) (col1 col2 : String)
    (alpha : Rat) : Except String (String ⊕ PyDict) := do
  let c1 ← dfGet df col1
  let c2 ← dfGet df col2
  match numData c1.data, numData c2.data with
  | Option.some v1, Option.some v2 =>
    let series1 := v1.filterMap id
    let series2 := v2.filterMap id
    let r ←
      if is_normal o series1 && is_normal o series2 then do
        let sp ← pearsonrModel o series1 series2
        pure (sp, "Pearson")
      else do
        let sp ← spearmanrModel o series1 series2
        pure (sp, "Spearman")
    let sp := r.1
    let method := r.2
    let h := hypothesis_text "correlation" col1 col2
    Except.ok (Sum.inr
      [("test", PyVal.s (method ++ " Correlation")),
       ("columns", PyVal.pr col1 col2),
       ("H0", PyVal.s h.1), ("H1", PyVal.s h.2),
       ("stat", PyVal.r sp.1), ("p_value", PyVal.r sp.2),
       ("alpha", PyVal.r alpha),
       ("significance", PyVal.s (significanceText sp.2 alpha)),
       ("correlation_strength", PyVal.s
         (if |sp.1| > mkRat 7 10 then "Strong"
          else if |sp.1| > mkRat 3 10 then "Moderate" else "Weak"))])
  | _, _ => Except.error "could not convert string to float"

/-! ### `agents/answer_generator.py` -/

/-- Source: `AnswerGenerator.format_test_result`.  A non-dict argument (the
skip-signal strings) is passed through `str()`; a dict is rendered with
the fixed template.  Note the Conclusion line reads key `"result"`,
which no test function produces. -/
def format_test_result (result : String ⊕ PyDict) : String :=
  match result with
  | Sum.inl s => s
  | Sum.inr d =>
    "Test: " ++ dictGetStr d "test" "N/A" ++ "\n"
      ++ "H₀: " ++ dictGetStr d "H0" "N/A" ++ "\n"
      ++ "H₁: " ++ dictGetStr d "H1" "N/A" ++ "\n"
      ++ "Conclusion: " ++ dictGetStr d "result" "N/A"

/-- The `skip_patterns` regex list (each applied as `\b...\b`). -/
def skipPatterns : List String :=
  ["mean", "average", "max", "min", "median", "sum", "count"]

/-- Source: `df[col].quantile([0.25, 0.75])` and the IQR outlier count
`((df[col] < Q1 - 1.5*IQR) | (df[col] > Q3 + 1.5*IQR)).sum()`
(comparisons against `NaN` are `False`, so missing entries never
count). -/
def iqrOutlierCount (vals : List (Option Rat)) (lo hi : Rat) : Nat :=
  (vals.filterMap id).countP (fun x => decide (x < lo) || decide (x > hi))

/-- The body of the `for q in questions` loop of
`AnswerGenerator.answer_questions` (the part inside `try`):
`Except.error e` models an exception reaching the `except` clause,
`Option.none` a `continue`/fall-through (no entry for `q`),
`Option.some a` the computed answer string. -/
def processQuestion (o : Oracle) (df : Df) (alpha : Rat) (q : String) :
    Except String (Option String) :=
  let ql := lowerStr q
  if skipPatterns.any (fun w => wbMatch w ql) then
    Except.ok Option.none
  else
    let cols := extract_columns_from_question q
    -- === Correlation (numeric-numeric) ===
    if hasSub "correlation" ql && cols.length == 2 then
      match cols with
      | [c1, c2] =>
        -- all(is_numeric_dtype(df[c]) for c in cols) — short-circuiting;
        -- a raised KeyError propagates to the except clause
        match dfGet df c1 with
        | Except.error e => Except.error e
        | Except.ok d1 =>
          if isNumericCol d1 then
            match dfGet df c2 with
            | Except.error e => Except.error e
            | Except.ok d2 =>
              if isNumericCol d2 then
                match test_numeric_numeric o df c1 c2 alpha with
                | Except.error e => Except.error e
                | Except.ok result =>
                  Except.ok (Option.some (format_test_result result))
              else Except.ok Option.none
          else Except.ok Option.none
      | _ => Except.ok Option.none
    -- === Skewness ===
    else if hasSub "skew" ql && cols.length == 1 then
      match cols with
      | [c] =>
        match dfGet df c with
        | Except.error e => Except.error e
        | Except.ok d =>
          match numData d.data with
          | Option.some vals =>
            let skewVal := o.skew vals
            let skewType :=
              if |skewVal| > 1 then "Highly skewed" else "Relatively symmetric"
            Except.ok (Option.some ("'" ++ c ++ "' skewness = " ++ o.fmt2 skewVal
              ++ " (" ++ skewType ++ ")."))
          | Option.none => Except.ok Option.none
      | _ => Except.ok Option.none
    -- === Kurtosis ===
    else if hasSub "kurtosis" ql && cols.length == 1 then
      match cols with
      | [c] =>
        match dfGet df c with
        | Except.error e => Except.error e
        | Except.ok d =>
          match numData d.data with
          | Option.some vals =>
            let kurtVal := o.kurt vals
            let shape :=
              if kurtVal > 3 then "Leptokurtic (heavy tails)"
              else if kurtVal < 3 then "Platykurtic (light tails)"
              else "Mesokurtic (normal-like)"
            Except.ok (Option.some ("'" ++ c ++ "' kurtosis = " ++ o.fmt2 kurtVal
              ++ " (" ++ shape ++ ")."))
          | Option.none => Except.ok Option.none
      | _ => Except.ok Option.none
    -- === Outlier detection ===
    else if hasSub "outlier" ql && cols.length == 1 then
      match cols with
      | [c] =>
        match dfGet df c with
        | Except.error e => Except.error e
        | Except.ok d =>
          match numData d.data with
          | Option.some vals =>
            let q1 := o.quantile vals (mkRat 1 4)
            let q3 := o.quantile vals (mkRat 3 4)
            let iqr := q3 - q1
            let outliers := iqrOutlierCount vals
              (q1 - mkRat 3 2 * iqr) (q3 + mkRat 3 2 * iqr)
            Except.ok (Option.some ("'" ++ c ++ "' has " ++ Nat.repr outliers
              ++ " outliers detected using IQR method."))
          | Option.none => Except.ok Option.none
      | _ => Except.ok Option.none
    -- === Numeric-Categorical difference (t-test / ANOVA) ===
    else if hasSub "different" ql && cols.length == 2 then
      match cols with
      | [catCol, numCol] =>
        match dfGet df numCol with
        | Except.error e => Except.error e
        | Except.ok dn =>
          if isNumericCol dn then
            match dfGet df catCol with
            | Except.error e => Except.error e
            | Except.ok dc =>
              if isCatCol dc then
                match test_numeric_categorical o df catCol numCol alpha with
                | Except.error e => Except.error e
                | Except.ok result =>
                  Except.ok (Option.some (format_test_result result))
              else Except.ok Option.none
          else Except.ok Option.none
      | _ => Except.ok Option.none
    -- === Categorical-Categorical association (Chi-square) ===
    else if hasSub "association" ql && cols.length == 2 then
      match cols with
      | [cat1, cat2] =>
        match dfGet df cat1 with
        | Except.error e => Except.error e
        | Except.ok d1 =>
          if isCatCol d1 then
            match dfGet df cat2 with
            | Except.error e => Except.error e
            | Except.ok d2 =>
              if isCatCol d2 then
                match test_categorical_categorical o df cat1 cat2 alpha with
                | Except.error e => Except.error e
                | Except.ok result =>
                  Except.ok (Option.some (format_test_result result))
              else Except.ok Option.none
          else Except.ok Option.none
      | _ => Except.ok Option.none
    -- === Missing data check ===
    else if hasSub "missing" ql && cols.length == 1 then
      match cols with
      | [c] =>
        match dfGet df c with
        | Except.error e => Except.error e
        | Except.ok d =>
          let missingPct := missingFrac d.data * 100
          if missingPct > 0 then
            Except.ok (Option.some ("Missing data in '" ++ c ++ "': "
              ++ o.fmt1 missingPct ++ "%."))
          else
            Except.ok (Option.some ("No missing data in '" ++ c ++ "'."))
      | _ => Except.ok Option.none
    -- === Duplicate check ===
    else if hasSub "duplicate" ql then
      Except.ok (Option.some ("Dataset contains " ++ Nat.repr (dupRowCount df)
        ++ " duplicate rows."))
    -- === Trend detection placeholder ===
    else if hasSub "trend" ql && cols.length == 1 then
      match cols with
      | [c] =>
        Except.ok (Option.some ("Trend analysis for '" ++ c
          ++ "' requires time-series decomposition — not automated here."))
      | _ => Except.ok Option.none
    else
      Except.ok Option.none

/-- Source: `answers[q] = v` on an insertion-ordered dict. -/
def dictInsert (d : List (String × String)) (k v : String) :
    List (String × String) :=
  match d with
  | [] => [(k, v)]
  | (k', v') :: rest =>
    if k' = k then (k', v) :: rest else (k', v') :: dictInsert rest k v

def dictFind (d : List (String × String)) (k : String) : Option String :=
  match d with
  | [] => Option.none
  | (k', v) :: rest => if k' = k then Option.some v else dictFind rest k

/-- One iteration of the `for q in questions` loop: the `try` body's
outcome updates the `answers` dict (`except` writes the error entry). -/
def answerStep (o : Oracle) (df : Df) (alpha : Rat)
    (answers : List (String × String)) (q : String) : List (String × String) :=
  match processQuestion o df alpha q with
  | Except.error e => dictInsert answers q ("Error answering question: " ++ e)
  | Except.ok Option.none => answers
  | Except.ok (Option.some a) => dictInsert answers q a

/-- Source: `AnswerGenerator.answer_questions`: every question is processed
inside `try`; an exception becomes the per-question error entry. -/
def answer_questions (o : Oracle) (df : Df) (questions : List String)
    (alpha : Rat) : List (String × String) :=
  questions.foldl (answerStep o df alpha) []

/-! ### `agents/question_generator.py`

Each emitted question is tracked together with the column names the
emitting rule interpolated (`refs`) and the rule that fired (`kind`);
`generate_questions` itself is the projection to the text.  The extra
bookkeeping formalises "the column names a question references", which
the round-trip property is about. -/

inductive QKind
  | corr | skewq | kurtq | catnum | catcat | dtdecomp | dtovertime
  | outlierq | missingq | dupq
deriving DecidableEq

structure QA where
  text : String
  refs : List String
  kind : QKind
deriving DecidableEq

/-- Python's `f"...'{col}'..."` interpolation of a name between the
ASCII single quotes consumed by `extract_columns_from_question`. -/
def qn (s : String) : String := "'" ++ s ++ "'"

def corrQText (strength method fmtr c1 c2 : String) : String :=
  "Does the " ++ strength ++ " " ++ method ++ " correlation (r=" ++ fmtr
    ++ ") between " ++ qn c1 ++ " and " ++ qn c2
    ++ " indicate potential causal or confounding factors worth testing?"

def skewQText (c fmtv : String) : String :=
  qn c ++ " is highly skewed (skew=" ++ fmtv
    ++ "); should transformation or robust statistics be used?"

def kurtQText (c fmtv : String) : String :=
  qn c ++ " has high kurtosis (" ++ fmtv
    ++ "); are heavy tails affecting hypothesis test validity?"

def catnumQText (cat num : String) : String :=
  "Do different " ++ qn cat ++ " categories show significant differences in "
    ++ qn num ++ " means (t-test/ANOVA) or medians (Kruskal-Wallis) depending on normality?"

def catcatQText (c1 c2 : String) : String :=
  "Is there an association between " ++ qn c1 ++ " and " ++ qn c2
    ++ " (Chi-square test with Cramér’s V effect size)?"

def dtdecompQText (c : String) : String :=
  "Are there seasonal or trend components in " ++ qn c
    ++ " detectable via time-series decomposition?"

def overtimeQText (num c : String) : String :=
  "Does " ++ qn num ++ " change significantly over time based on " ++ qn c
    ++ " (trend analysis, Mann-Kendall test)?"

def outlierQText (n : Nat) (c : String) : String :=
  "Do the " ++ Nat.repr n ++ " outliers in " ++ qn c
    ++ " materially influence model parameters or statistical significance?"

def missingQText (fmtpct c : String) : String :=
  "With " ++ fmtpct ++ "% missing in " ++ qn c
    ++ ", is advanced imputation (e.g., MICE) preferable over deletion?"

def dupQText : String :=
  "Could duplicate rows introduce bias in model coefficients or inflate statistical significance?"

/-- Source: `df.select_dtypes(include=['number']).columns.tolist()`. -/
def numeric_cols (df : Df) : List String :=
  (df.filter (fun c => isNumericCol c)).map (fun c => c.name)

/-- Source: `df.select_dtypes(include=['object', 'category']).columns.tolist()`. -/
def cat_cols (df : Df) : List String :=
  (df.filter (fun c => isCatCol c)).map (fun c => c.name)

/-- Source: `df.select_dtypes(include=['datetime', 'datetimetz']).columns.tolist()`. -/
def datetime_cols (df : Df) : List String :=
  (df.filter (fun c => isDtCol c)).map (fun c => c.name)

/-- Total variant of `df[c]` for names already known to come from the
dataset's own column list (as all the generator's accesses do). -/
def colValsNum (df : Df) (c : String) : List (Option Rat) :=
  match df.find? (fun col => col.name == c) with
  | Option.some col => (numData col.data).getD []
  | Option.none => []

def colKeyVals (df : Df) (c : String) : List (Option String) :=
  match df.find? (fun col => col.name == c) with
  | Option.some col => cellKeys col.data
  | Option.none => []

/-- Source: `df[c].nunique()`. -/
def nuniqueCol (df : Df) (c : String) : Nat :=
  ((colKeyVals df c).filterMap id).dedup.length

/-- The generator's inline per-column normality decision:
`p_i > 0.05` where
`p_i = shapiro(dropna.sample(min(500, len(dropna))))[1] if len(dropna) > 3 else 1`. -/
def genColNormal (o : Oracle) (vals : List (Option Rat)) : Bool :=
  let s := vals.filterMap id
  (if s.length > 3 then o.shapiroP (o.sample s (min 500 s.length)) else 1) > mkRat 1 20

/-- The ordered `i < j` pairs of the nested loops. -/
def orderedPairs : List String → List (String × String)
  | [] => []
  | c :: rest => rest.map (fun d => (c, d)) ++ orderedPairs rest

/-- Source: `method = "Pearson" if (p1 > 0.05 and p2 > 0.05) else "Spearman"`. -/
def pairMethod (o : Oracle) (df : Df) (c1 c2 : String) : String :=
  if genColNormal o (colValsNum df c1) && genColNormal o (colValsNum df c2)
  then "Pearson" else "Spearman"

/-- Source: `corr = df[col1].corr(df[col2], method=method.lower())`. -/
def pairCorr (o : Oracle) (df : Df) (c1 c2 : String) : Option Rat :=
  o.dfcorr (lowerStr (pairMethod o df c1 c2)) (colValsNum df c1) (colValsNum df c2)

/-- The correlation-question loop, with its running
`corr_questions_added` counter (`added`) and cap (`maxq`). -/
def corrLoop (o : Oracle) (df : Df) :
    List (String × String) → Nat → Nat → List QA
  | [], _, _ => []
  | (c1, c2) :: rest, added, maxq =>
    if ((colValsNum df c1).filterMap id).isEmpty
        || ((colValsNum df c2).filterMap id).isEmpty then
      corrLoop o df rest added maxq
    else
      match pairCorr o df c1 c2 with
      | Option.none => corrLoop o df rest added maxq
      | Option.some corr =>
        if decide (|corr| > mkRat 3 10) && added < maxq then
          { text := corrQText (if |corr| > mkRat 7 10 then "strong" else "moderate")
              (pairMethod o df c1 c2) (o.fmt2 corr) c1 c2,
            refs := [c1, c2], kind := QKind.corr } :: corrLoop o df rest (added + 1) maxq
        else corrLoop o df rest added maxq

/-- The skewness/kurtosis question loop. -/
def skewKurtQAs (o : Oracle) (df : Df) : List QA :=
  (numeric_cols df).flatMap (fun c =>
    let sv := o.skew (colValsNum df c)
    let kv := o.kurt (colValsNum df c)
    (if |sv| > 1 then [⟨skewQText c (o.fmt2 sv), [c], QKind.skewq⟩] else [])
      ++ (if kv > 3 then [⟨kurtQText c (o.fmt2 kv), [c], QKind.kurtq⟩] else []))

/-- The categorical-numeric question loop. -/
def catnumQAs (df : Df) : List QA :=
  (cat_cols df).flatMap (fun cat =>
    if nuniqueCol df cat ≤ 10 then
      (numeric_cols df).map (fun num => ⟨catnumQText cat num, [cat, num], QKind.catnum⟩)
    else [])

/-- The categorical-categorical association loop. -/
def catcatQAs (df : Df) : List QA :=
  (orderedPairs (cat_cols df)).filterMap (fun p =>
    if nuniqueCol df p.1 ≤ 10 && nuniqueCol df p.2 ≤ 10 then
      Option.some ⟨catcatQText p.1 p.2, [p.1, p.2], QKind.catcat⟩
    else Option.none)

/-- The time-series / trends loop. -/
def dtQAs (df : Df) : List QA :=
  (datetime_cols df).flatMap (fun c =>
    ⟨dtdecompQText c, [c], QKind.dtdecomp⟩
      :: (numeric_cols df).map (fun num => ⟨overtimeQText num c, [num, c], QKind.dtovertime⟩))

/-- The outlier-impact loop. -/
def outlierQAs (o : Oracle) (df : Df) : List QA :=
  (numeric_cols df).filterMap (fun c =>
    let vals := colValsNum df c
    let q1 := o.quantile vals (mkRat 1 4)
    let q3 := o.quantile vals (mkRat 3 4)
    let iqr := q3 - q1
    let outliers := iqrOutlierCount vals (q1 - mkRat 3 2 * iqr) (q3 + mkRat 3 2 * iqr)
    if outliers > 0 then Option.some ⟨outlierQText outliers c, [c], QKind.outlierq⟩
    else Option.none)

/-- The missing-data loop (`for col in df.columns[df.isnull().any()]`). -/
def missingQAs (o : Oracle) (df : Df) : List QA :=
  (df.filter (fun c => hasMissing c.data)).filterMap (fun c =>
    let pct := missingFrac c.data * 100
    if pct > 5 then Option.some ⟨missingQText (o.fmt1 pct) c.name, [c.name], QKind.missingq⟩
    else Option.none)

/-- The duplicate-rows rule (`df.duplicated().any()`). -/
def dupQAs (df : Df) : List QA :=
  if dupRowCount df > 0 then [⟨dupQText, [], QKind.dupq⟩] else []

/-- Source: `QuestionGenerator.generate_questions`, with reference/kind
bookkeeping. -/
def genQA (o : Oracle) (df : Df) (maxCorrQuestions : Nat) : List QA :=
  corrLoop o df (orderedPairs (numeric_cols df)) 0 maxCorrQuestions
    ++ skewKurtQAs o df ++ catnumQAs df ++ catcatQAs df ++ dtQAs df
    ++ outlierQAs o df ++ missingQAs o df ++ dupQAs df

/-- Source: `QuestionGenerator.generate_questions` (the emitted strings). -/
def generate_questions (o : Oracle) (df : Df) (maxCorrQuestions : Nat) :
    List String :=
  (genQA o df maxCorrQuestions).map (fun qa => qa.text)

/-! ### Auxiliary definitions for the statements

Spec-side mirrors (clearly separated from the source transcriptions
above) and concrete fixtures used by witnesses and counterexamples. -/

def colNames (df : Df) : List String := df.map (fun c => c.name)

/-- A question text as an alternation of unquoted segments (`Sum.inl`)
and quoted column names (`Sum.inr`); used to reason uniformly about the
generator's templates. -/
def renderChunks : List (String ⊕ String) → String
  | [] => ""
  | Sum.inl s :: r => s ++ renderChunks r
  | Sum.inr n :: r => qn n ++ renderChunks r

def chunkRefs (cs : List (String ⊕ String)) : List String :=
  cs.filterMap (fun c =>
    match c with
    | Sum.inr n => Option.some n
    | Sum.inl _ => Option.none)

/-- The "test" entry of a test function's result, when the call
returned a result dict (and not a skip string or an exception). -/
def testField (r : Except String (String ⊕ PyDict)) : Option PyVal :=
  match r with
  | Except.ok (Sum.inr d) => dictGet d "test"
  | _ => Option.none

/-- Whether a test function returned a result dict (as opposed to a
skip-signal string or a raised exception). -/
def isDictResult (r : Except String (String ⊕ PyDict)) : Bool :=
  match r with
  | Except.ok (Sum.inr _) => true
  | _ => false

/-- The result dict of a test function call, when there is one. -/
def resultDict (r : Except String (String ⊕ PyDict)) : Option PyDict :=
  match r with
  | Except.ok (Sum.inr d) => Option.some d
  | _ => Option.none

/-- The per-question outcome `answer_questions` records: the error
entry, no entry, or the computed answer (the claimed behaviour of the
`try`/`except` loop, to be compared with the `foldl`). -/
def answerEntry (o : Oracle) (df : Df) (alpha : Rat) (q : String) :
    Option (String × String) :=
  match processQuestion o df alpha q with
  | Except.error e => Option.some (q, "Error answering question: " ++ e)
  | Except.ok Option.none => Option.none
  | Except.ok (Option.some a) => Option.some (q, a)

/-- A fixed everywhere-defined oracle used by concrete fixtures:
its Shapiro p-value is 1/2 (every sufficiently large sample "passes"
normality) and every statistic is significant at alpha = 1/20. -/
def oracle0 : Oracle where
  sample := fun s _ => s
  shapiroP := fun _ => mkRat 1 2
  ttest := fun _ _ => (2, mkRat 1 100)
  mwu := fun _ _ => (3, mkRat 1 100)
  fOneway := fun _ => (4, mkRat 1 100)
  kruskal := fun _ => (5, mkRat 1 100)
  pearson := fun _ _ => (mkRat 9 10, mkRat 1 100)
  spearman := fun _ _ => (mkRat 8 10, mkRat 1 100)
  chi2 := fun _ => (6, mkRat 1 100)
  cramersV := fun _ => mkRat 1 2
  cohensD := fun _ _ => Option.some 1
  dfcorr := fun _ _ _ => Option.some (mkRat 1 2)
  skew := fun _ => 2
  kurt := fun _ => 0
  quantile := fun _ _ => 0
  fmt2 := fun _ => "2.00"
  fmt1 := fun _ => "50.0"

/-- One categorical column with a single category: grouping the numeric
column by it yields exactly one group. -/
def dfOneGroup : Df :=
  [⟨"g", ColData.cat [Option.some "a", Option.some "a"]⟩,
   ⟨"v", ColData.num [Option.some 1, Option.some 2]⟩]

/-- A categorical column with two categories. -/
def dfTwoGroups : Df :=
  [⟨"g", ColData.cat [Option.some "a", Option.some "b"]⟩,
   ⟨"v", ColData.num [Option.some 1, Option.some 2]⟩]

/-- Two numeric columns whose missing-value counts differ: after the
independent `dropna` the series have lengths 2 and 3. -/
def dfMissingPair : Df :=
  [⟨"a", ColData.num [Option.some 1, Option.none, Option.some 3]⟩,
   ⟨"b", ColData.num [Option.some 1, Option.some 2, Option.some 3]⟩]

/-- Two numeric columns with equal missing patterns (none missing). -/
def dfCleanPair : Df :=
  [⟨"a", ColData.num [Option.some 1, Option.some 2, Option.some 3, Option.some 4]⟩,
   ⟨"b", ColData.num [Option.some 2, Option.some 4, Option.some 6, Option.some 9]⟩]

/-- A numeric column whose name is the empty string (legal in pandas,
and containing no single-quote character). -/
def dfEmptyName : Df :=
  [⟨"", ColData.num [Option.some 0, Option.some 0, Option.some 0,
      Option.some 0, Option.some 10]⟩]

/-- Two numeric columns of length 2 each: the generator's inline
normality check treats them as normal, while `_is_normal` rejects any
sample shorter than 3. -/
def dfShortPair : Df :=
  [⟨"x", ColData.num [Option.some 1, Option.some 2]⟩,
   ⟨"y", ColData.num [Option.some 3, Option.some 5]⟩]

/-- A numeric column whose name contains the dispatch keyword
`duplicate`, plus a datetime column. -/
def dfDupName : Df :=
  [⟨"duplicates", ColData.num [Option.some 0]⟩,
   ⟨"date", ColData.dt [Option.some 5]⟩]

/-- A datetime column and an innocuously named numeric column. -/
def dfTimeValue : Df :=
  [⟨"value", ColData.num [Option.some 0]⟩,
   ⟨"date", ColData.dt [Option.some 5]⟩]

/-! ## Helper lemmas -/

theorem emptyStr_data : ("" : String).data = [] := rfl

theorem lowerStr_append (a b : String) :
    lowerStr (a ++ b) = lowerStr a ++ lowerStr b := by
  apply String.ext
  simp [lowerStr, String.data_append]

theorem isPrefixOf_append_of_isPrefixOf {w a : List Char} (b : List Char)
    (h : w.isPrefixOf a = true) : w.isPrefixOf (a ++ b) = true := by
  rw [List.isPrefixOf_iff_prefix] at h ⊢
  exact h.trans (List.prefix_append a b)

theorem hasSubChars_append_left {w a : List Char} (b : List Char)
    (h : hasSubChars w a = true) : hasSubChars w (a ++ b) = true := by
  induction a with
  | nil =>
    rw [hasSubChars] at h
    cases w with
    | nil => cases b <;> simp [hasSubChars]
    | cons c cs => simp at h
  | cons c cs ih =>
    rw [List.cons_append, hasSubChars]
    rw [hasSubChars] at h
    rcases Bool.or_eq_true_iff.mp h with hp | hs
    · exact Bool.or_eq_true_iff.mpr (Or.inl (isPrefixOf_append_of_isPrefixOf b hp))
    · exact Bool.or_eq_true_iff.mpr (Or.inr (ih hs))

theorem hasSubChars_append_right (w : List Char) (a : List Char) {b : List Char}
    (h : hasSubChars w b = true) : hasSubChars w (a ++ b) = true := by
  induction a with
  | nil => exact h
  | cons c cs ih =>
    rw [List.cons_append, hasSubChars]
    exact Bool.or_eq_true_iff.mpr (Or.inr ih)

theorem hasSub_append_left {w a : String} (b : String) (h : hasSub w a = true) :
    hasSub w (a ++ b) = true := by
  unfold hasSub at h ⊢
  rw [String.data_append]
  exact hasSubChars_append_left b.data h

theorem hasSub_append_right {w : String} (a : String) {b : String}
    (h : hasSub w b = true) : hasSub w (a ++ b) = true := by
  unfold hasSub at h ⊢
  rw [String.data_append]
  exact hasSubChars_append_right w.data a.data h

theorem extractAux_outside_append (s t : List Char)
    (h : ∀ c ∈ s, c ≠ quoteChar) :
    extractAux ScanSt.outside (s ++ t) = extractAux ScanSt.outside t := by
  induction s with
  | nil => rfl
  | cons c cs ih =>
    have hc : ¬(c = quoteChar) := h c (by simp)
    rw [List.cons_append, extractAux, if_neg hc]
    exact ih (fun c' hc' => h c' (by simp [hc']))

theorem extractAux_inside_append (n : List Char) (h : ∀ c ∈ n, c ≠ quoteChar) :
    ∀ (acc t : List Char), extractAux (ScanSt.inside acc) (n ++ t)
      = extractAux (ScanSt.inside (n.reverse ++ acc)) t := by
  induction n with
  | nil => intro acc t; rfl
  | cons c cs ih =>
    intro acc t
    have hc : ¬(c = quoteChar) := h c (by simp)
    rw [List.cons_append, extractAux, if_neg hc,
      ih (fun c' hc' => h c' (by simp [hc'])) (c :: acc) t]
    simp

theorem extractAux_outside_noq (s : List Char) (h : ∀ c ∈ s, c ≠ quoteChar) :
    extractAux ScanSt.outside s = [] := by
  have := extractAux_outside_append s [] h
  simpa using this

theorem extractAux_quoted (name t : List Char) (hne : name ≠ [])
    (h : ∀ c ∈ name, c ≠ quoteChar) :
    extractAux ScanSt.outside (quoteChar :: (name ++ quoteChar :: t))
      = name :: extractAux ScanSt.outside t := by
  rw [extractAux, if_pos rfl, extractAux_inside_append name h [] (quoteChar :: t),
    extractAux, if_pos rfl]
  have hne' : (name.reverse ++ []).isEmpty = false := by
    simp [List.isEmpty_iff]
    exact hne
  rw [hne']
  simp

theorem extractAux_renderChunks (cs : List (String ⊕ String))
    (hseg : ∀ s, Sum.inl s ∈ cs → noQuote s)
    (hname : ∀ n, Sum.inr n ∈ cs → noQuote n ∧ n ≠ "") :
    extractAux ScanSt.outside (renderChunks cs).data
      = (chunkRefs cs).map String.data := by
  induction cs with
  | nil => rfl
  | cons ch rest ih =>
    have ihr := ih (fun s hs => hseg s (by simp [hs]))
      (fun n hn => hname n (by simp [hn]))
    match ch with
    | Sum.inl s =>
      have hs : noQuote s := hseg s (by simp)
      rw [renderChunks, String.data_append,
        extractAux_outside_append s.data _ (fun c hc hceq => hs (hceq ▸ hc)), ihr]
      simp [chunkRefs]
    | Sum.inr n =>
      have hn := hname n (by simp)
      have hnd : n.data ≠ [] := fun hd => hn.2 (String.ext hd)
      have hq : ∀ c ∈ n.data, c ≠ quoteChar :=
        fun c hc hceq => hn.1 (hceq ▸ hc)
      have hdata : (qn n ++ renderChunks rest).data
          = quoteChar :: (n.data ++ quoteChar :: (renderChunks rest).data) := by
        simp [qn, String.data_append]
        rfl
      rw [renderChunks, hdata, extractAux_quoted n.data _ hnd hq, ihr]
      simp [chunkRefs]

theorem extract_renderChunks (cs : List (String ⊕ String))
    (hseg : ∀ s, Sum.inl s ∈ cs → noQuote s)
    (hname : ∀ n, Sum.inr n ∈ cs → noQuote n ∧ n ≠ "") :
    extract_columns_from_question (renderChunks cs) = chunkRefs cs := by
  unfold extract_columns_from_question
  rw [extractAux_renderChunks cs hseg hname, List.map_map]
  have : (List.asString ∘ String.data) = id := funext (fun s => rfl)
  rw [this, List.map_id]

theorem noQuote_append {a b : String} (ha : noQuote a) (hb : noQuote b) :
    noQuote (a ++ b) := by
  unfold noQuote at ha hb ⊢
  rw [String.data_append, List.mem_append]
  rintro (h | h)
  · exact ha h
  · exact hb h

theorem extract_corrQText (st me f c1 c2 : String)
    (hst : noQuote st) (hme : noQuote me) (hf : noQuote f)
    (h1 : noQuote c1) (h1' : c1 ≠ "") (h2 : noQuote c2) (h2' : c2 ≠ "") :
    extract_columns_from_question (corrQText st me f c1 c2) = [c1, c2] := by
  have hchunks : corrQText st me f c1 c2 = renderChunks
      [Sum.inl ("Does the " ++ st ++ " " ++ me ++ " correlation (r=" ++ f ++ ") between "),
       Sum.inr c1, Sum.inl " and ", Sum.inr c2,
       Sum.inl " indicate potential causal or confounding factors worth testing?"] := by
    apply String.ext
    simp [corrQText, renderChunks, String.data_append]
  rw [hchunks, extract_renderChunks]
  · rfl
  · intro s hs
    simp at hs
    rcases hs with hs | hs | hs
    · subst hs
      exact noQuote_append (noQuote_append (noQuote_append (noQuote_append
        (noQuote_append (noQuote_append (by decide) hst) (by decide)) hme)
        (by decide)) hf) (by decide)
    · subst hs; decide
    · subst hs; decide
  · intro n hn
    simp at hn
    rcases hn with hn | hn <;> simp [hn, h1, h1', h2, h2']

theorem digitChar_ne_quote (n : Nat) : Nat.digitChar n ≠ quoteChar := by
  by_cases h : n < 16
  · interval_cases n <;> decide
  · have hstar : Nat.digitChar n = '*' := by
      unfold Nat.digitChar
      iterate 16 rw [if_neg (by omega)]
    rw [hstar]
    decide

theorem toDigitsCore_ne_quote (b : Nat) (fuel : Nat) :
    ∀ (n : Nat) (acc : List Char), (∀ c ∈ acc, c ≠ quoteChar) →
      ∀ c ∈ Nat.toDigitsCore b fuel n acc, c ≠ quoteChar := by
  induction fuel with
  | zero =>
    intro n acc hacc c hc
    exact hacc c hc
  | succ f ih =>
    intro n acc hacc c hc
    rw [Nat.toDigitsCore] at hc
    by_cases hz : n / b = 0
    · rw [if_pos hz] at hc
      rcases List.mem_cons.mp hc with hc | hc
      · exact hc ▸ digitChar_ne_quote (n % b)
      · exact hacc c hc
    · rw [if_neg hz] at hc
      refine ih (n / b) (Nat.digitChar (n % b) :: acc) ?_ c hc
      intro c' hc'
      rcases List.mem_cons.mp hc' with hc' | hc'
      · exact hc' ▸ digitChar_ne_quote (n % b)
      · exact hacc c' hc'

theorem natRepr_noQuote (n : Nat) : noQuote (Nat.repr n) := by
  intro hmem
  have hd : (Nat.repr n).data = Nat.toDigitsCore 10 (n + 1) n [] := rfl
  rw [hd] at hmem
  exact toDigitsCore_ne_quote 10 (n + 1) n [] (by intro c hc; cases hc)
    quoteChar hmem rfl

theorem toDigitsCore_length_ge (b fuel : Nat) :
    ∀ (n : Nat) (acc : List Char),
      acc.length ≤ (Nat.toDigitsCore b fuel n acc).length := by
  induction fuel with
  | zero =>
    intro n acc
    rw [Nat.toDigitsCore]
  | succ f ih =>
    intro n acc
    rw [Nat.toDigitsCore]
    by_cases hz : n / b = 0
    · rw [if_pos hz]
      simp
    · rw [if_neg hz]
      exact le_trans (by simp) (ih (n / b) (Nat.digitChar (n % b) :: acc))

theorem natRepr_ne_empty (n : Nat) : Nat.repr n ≠ "" := by
  intro h
  have hd : (Nat.repr n).data = Nat.toDigitsCore 10 (n + 1) n [] := rfl
  have hlen : 1 ≤ (Nat.toDigitsCore 10 (n + 1) n []).length := by
    rw [Nat.toDigitsCore]
    by_cases hz : n / 10 = 0
    · rw [if_pos hz]
      simp
    · rw [if_neg hz]
      exact le_trans (by simp) (toDigitsCore_length_ge 10 n (n / 10)
        [Nat.digitChar (n % 10)])
  rw [h] at hd
  rw [← hd] at hlen
  simp at hlen

theorem extract_skewQText (c fmtv : String)
    (hc : noQuote c) (hc' : c ≠ "") (hf : noQuote fmtv) :
    extract_columns_from_question (skewQText c fmtv) = [c] := by
  have hchunks : skewQText c fmtv = renderChunks
      [Sum.inr c,
       Sum.inl (" is highly skewed (skew=" ++ fmtv
         ++ "); should transformation or robust statistics be used?")] := by
    apply String.ext
    simp [skewQText, renderChunks, String.data_append]
  rw [hchunks, extract_renderChunks]
  · rfl
  · intro s hs
    simp at hs
    subst hs
    exact noQuote_append (noQuote_append (by decide) hf) (by decide)
  · intro n hn
    simp at hn
    simp [hn, hc, hc']

theorem extract_kurtQText (c fmtv : String)
    (hc : noQuote c) (hc' : c ≠ "") (hf : noQuote fmtv) :
    extract_columns_from_question (kurtQText c fmtv) = [c] := by
  have hchunks : kurtQText c fmtv = renderChunks
      [Sum.inr c,
       Sum.inl (" has high kurtosis (" ++ fmtv
         ++ "); are heavy tails affecting hypothesis test validity?")] := by
    apply String.ext
    simp [kurtQText, renderChunks, String.data_append]
  rw [hchunks, extract_renderChunks]
  · rfl
  · intro s hs
    simp at hs
    subst hs
    exact noQuote_append (noQuote_append (by decide) hf) (by decide)
  · intro n hn
    simp at hn
    simp [hn, hc, hc']

theorem extract_catnumQText (cat num : String)
    (h1 : noQuote cat) (h1' : cat ≠ "") (h2 : noQuote num) (h2' : num ≠ "") :
    extract_columns_from_question (catnumQText cat num) = [cat, num] := by
  have hchunks : catnumQText cat num = renderChunks
      [Sum.inl "Do different ", Sum.inr cat,
       Sum.inl " categories show significant differences in ", Sum.inr num,
       Sum.inl " means (t-test/ANOVA) or medians (Kruskal-Wallis) depending on normality?"] := by
    apply String.ext
    simp [catnumQText, renderChunks, String.data_append]
  rw [hchunks, extract_renderChunks]
  · rfl
  · intro s hs
    simp at hs
    rcases hs with hs | hs | hs <;> (subst hs; decide)
  · intro n hn
    simp at hn
    rcases hn with hn | hn <;> simp [hn, h1, h1', h2, h2']

theorem extract_catcatQText (c1 c2 : String)
    (h1 : noQuote c1) (h1' : c1 ≠ "") (h2 : noQuote c2) (h2' : c2 ≠ "") :
    extract_columns_from_question (catcatQText c1 c2) = [c1, c2] := by
  have hchunks : catcatQText c1 c2 = renderChunks
      [Sum.inl "Is there an association between ", Sum.inr c1,
       Sum.inl " and ", Sum.inr c2,
       Sum.inl " (Chi-square test with Cramér’s V effect size)?"] := by
    apply String.ext
    simp [catcatQText, renderChunks, String.data_append]
  rw [hchunks, extract_renderChunks]
  · rfl
  · intro s hs
    simp at hs
    rcases hs with hs | hs | hs <;> (subst hs; decide)
  · intro n hn
    simp at hn
    rcases hn with hn | hn <;> simp [hn, h1, h1', h2, h2']

theorem extract_dtdecompQText (c : String) (hc : noQuote c) (hc' : c ≠ "") :
    extract_columns_from_question (dtdecompQText c) = [c] := by
  have hchunks : dtdecompQText c = renderChunks
      [Sum.inl "Are there seasonal or trend components in ", Sum.inr c,
       Sum.inl " detectable via time-series decomposition?"] := by
    apply String.ext
    simp [dtdecompQText, renderChunks, String.data_append]
  rw [hchunks, extract_renderChunks]
  · rfl
  · intro s hs
    simp at hs
    rcases hs with hs | hs <;> (subst hs; decide)
  · intro n hn
    simp at hn
    simp [hn, hc, hc']

theorem extract_overtimeQText (num c : String)
    (h1 : noQuote num) (h1' : num ≠ "") (h2 : noQuote c) (h2' : c ≠ "") :
    extract_columns_from_question (overtimeQText num c) = [num, c] := by
  have hchunks : overtimeQText num c = renderChunks
      [Sum.inl "Does ", Sum.inr num,
       Sum.inl " change significantly over time based on ", Sum.inr c,
       Sum.inl " (trend analysis, Mann-Kendall test)?"] := by
    apply String.ext
    simp [overtimeQText, renderChunks, String.data_append]
  rw [hchunks, extract_renderChunks]
  · rfl
  · intro s hs
    simp at hs
    rcases hs with hs | hs | hs <;> (subst hs; decide)
  · intro n hn
    simp at hn
    rcases hn with hn | hn <;> simp [hn, h1, h1', h2, h2']

theorem extract_outlierQText (n : Nat) (c : String)
    (hc : noQuote c) (hc' : c ≠ "") :
    extract_columns_from_question (outlierQText n c) = [c] := by
  have hchunks : outlierQText n c = renderChunks
      [Sum.inl ("Do the " ++ Nat.repr n ++ " outliers in "), Sum.inr c,
       Sum.inl " materially influence model parameters or statistical significance?"] := by
    apply String.ext
    simp [outlierQText, renderChunks, String.data_append]
  rw [hchunks, extract_renderChunks]
  · rfl
  · intro s hs
    simp at hs
    rcases hs with hs | hs
    · subst hs
      exact noQuote_append (noQuote_append (by decide) (natRepr_noQuote n)) (by decide)
    · subst hs; decide
  · intro n' hn
    simp at hn
    simp [hn, hc, hc']

theorem extract_missingQText (fmtpct c : String)
    (hf : noQuote fmtpct) (hc : noQuote c) (hc' : c ≠ "") :
    extract_columns_from_question (missingQText fmtpct c) = [c] := by
  have hchunks : missingQText fmtpct c = renderChunks
      [Sum.inl ("With " ++ fmtpct ++ "% missing in "), Sum.inr c,
       Sum.inl ", is advanced imputation (e.g., MICE) preferable over deletion?"] := by
    apply String.ext
    simp [missingQText, renderChunks, String.data_append]
  rw [hchunks, extract_renderChunks]
  · rfl
  · intro s hs
    simp at hs
    rcases hs with hs | hs
    · subst hs
      exact noQuote_append (noQuote_append (by decide) hf) (by decide)
    · subst hs; decide
  · intro n hn
    simp at hn
    simp [hn, hc, hc']

theorem extract_dupQText : extract_columns_from_question dupQText = [] := by
  decide

theorem mem_numeric_cols (df : Df) {c : String} (h : c ∈ numeric_cols df) :
    c ∈ colNames df := by
  unfold numeric_cols at h
  unfold colNames
  obtain ⟨col, hcol, rfl⟩ := List.mem_map.mp h
  exact List.mem_map.mpr ⟨col, (List.mem_filter.mp hcol).1, rfl⟩

theorem mem_cat_cols (df : Df) {c : String} (h : c ∈ cat_cols df) :
    c ∈ colNames df := by
  unfold cat_cols at h
  unfold colNames
  obtain ⟨col, hcol, rfl⟩ := List.mem_map.mp h
  exact List.mem_map.mpr ⟨col, (List.mem_filter.mp hcol).1, rfl⟩

theorem mem_datetime_cols (df : Df) {c : String} (h : c ∈ datetime_cols df) :
    c ∈ colNames df := by
  unfold datetime_cols at h
  unfold colNames
  obtain ⟨col, hcol, rfl⟩ := List.mem_map.mp h
  exact List.mem_map.mpr ⟨col, (List.mem_filter.mp hcol).1, rfl⟩

theorem mem_orderedPairs : ∀ (l : List String) {p : String × String},
    p ∈ orderedPairs l → p.1 ∈ l ∧ p.2 ∈ l := by
  intro l
  induction l with
  | nil => intro p h; simp [orderedPairs] at h
  | cons c rest ih =>
    intro p h
    rw [orderedPairs] at h
    rcases List.mem_append.mp h with h | h
    · obtain ⟨d, hd, rfl⟩ := List.mem_map.mp h
      exact ⟨by simp, by simp [hd]⟩
    · obtain ⟨h1, h2⟩ := ih h
      exact ⟨by simp [h1], by simp [h2]⟩

theorem mem_corrLoop (o : Oracle) (df : Df) :
    ∀ (pairs : List (String × String)) (added maxq : Nat) {qa : QA},
      qa ∈ corrLoop o df pairs added maxq →
      ∃ c1 c2 r, (c1, c2) ∈ pairs ∧ pairCorr o df c1 c2 = Option.some r
        ∧ |r| > mkRat 3 10
        ∧ qa = ⟨corrQText (if |r| > mkRat 7 10 then "strong" else "moderate")
            (pairMethod o df c1 c2) (o.fmt2 r) c1 c2, [c1, c2], QKind.corr⟩ := by
  intro pairs
  induction pairs with
  | nil =>
    intro added maxq qa h
    simp [corrLoop] at h
  | cons p rest ih =>
    intro added maxq qa h
    obtain ⟨c1, c2⟩ := p
    rw [corrLoop] at h
    by_cases he : (((colValsNum df c1).filterMap id).isEmpty
        || ((colValsNum df c2).filterMap id).isEmpty) = true
    · rw [if_pos he] at h
      obtain ⟨d1, d2, r, hmem, hrest⟩ := ih added maxq h
      exact ⟨d1, d2, r, by simp [hmem], hrest⟩
    · rw [if_neg he] at h
      rcases hcorr : pairCorr o df c1 c2 with _ | r
      · simp only [hcorr] at h
        obtain ⟨d1, d2, r, hmem, hrest⟩ := ih added maxq h
        exact ⟨d1, d2, r, by simp [hmem], hrest⟩
      · simp only [hcorr] at h
        by_cases hcap : (decide (|r| > mkRat 3 10) && decide (added < maxq)) = true
        · rw [if_pos hcap] at h
          rcases List.mem_cons.mp h with h | h
          · refine ⟨c1, c2, r, by simp, hcorr, ?_, h⟩
            have := (Bool.and_eq_true _ _).mp hcap
            exact of_decide_eq_true this.1
          · obtain ⟨d1, d2, r', hmem, hrest⟩ := ih (added + 1) maxq h
            exact ⟨d1, d2, r', by simp [hmem], hrest⟩
        · rw [if_neg hcap] at h
          obtain ⟨d1, d2, r', hmem, hrest⟩ := ih added maxq h
          exact ⟨d1, d2, r', by simp [hmem], hrest⟩

theorem mem_skewKurtQAs (o : Oracle) (df : Df) {qa : QA}
    (h : qa ∈ skewKurtQAs o df) :
    ∃ c ∈ numeric_cols df,
      (|o.skew (colValsNum df c)| > 1
        ∧ qa = ⟨skewQText c (o.fmt2 (o.skew (colValsNum df c))), [c], QKind.skewq⟩)
      ∨ (o.kurt (colValsNum df c) > 3
        ∧ qa = ⟨kurtQText c (o.fmt2 (o.kurt (colValsNum df c))), [c], QKind.kurtq⟩) := by
  unfold skewKurtQAs at h
  obtain ⟨c, hc, hmem⟩ := List.mem_flatMap.mp h
  refine ⟨c, hc, ?_⟩
  rcases List.mem_append.mp hmem with hm | hm
  · by_cases hs : |o.skew (colValsNum df c)| > 1
    · rw [if_pos hs] at hm
      simp at hm
      exact Or.inl ⟨hs, hm⟩
    · rw [if_neg hs] at hm
      simp at hm
  · by_cases hk : o.kurt (colValsNum df c) > 3
    · rw [if_pos hk] at hm
      simp at hm
      exact Or.inr ⟨hk, hm⟩
    · rw [if_neg hk] at hm
      simp at hm

theorem mem_catnumQAs (df : Df) {qa : QA} (h : qa ∈ catnumQAs df) :
    ∃ cat ∈ cat_cols df, ∃ num ∈ numeric_cols df,
      qa = ⟨catnumQText cat num, [cat, num], QKind.catnum⟩ := by
  unfold catnumQAs at h
  obtain ⟨cat, hcat, hmem⟩ := List.mem_flatMap.mp h
  by_cases hn : nuniqueCol df cat ≤ 10
  · rw [if_pos hn] at hmem
    obtain ⟨num, hnum, rfl⟩ := List.mem_map.mp hmem
    exact ⟨cat, hcat, num, hnum, rfl⟩
  · rw [if_neg hn] at hmem
    simp at hmem

theorem mem_catcatQAs (df : Df) {qa : QA} (h : qa ∈ catcatQAs df) :
    ∃ c1 ∈ cat_cols df, ∃ c2 ∈ cat_cols df,
      qa = ⟨catcatQText c1 c2, [c1, c2], QKind.catcat⟩ := by
  unfold catcatQAs at h
  obtain ⟨p, hp, hval⟩ := List.mem_filterMap.mp h
  obtain ⟨hp1, hp2⟩ := mem_orderedPairs (cat_cols df) hp
  by_cases hn : (nuniqueCol df p.1 ≤ 10 && nuniqueCol df p.2 ≤ 10) = true
  · rw [if_pos hn] at hval
    injection hval with hv
    exact ⟨p.1, hp1, p.2, hp2, hv.symm⟩
  · rw [if_neg hn] at hval
    simp at hval

theorem mem_dtQAs (df : Df) {qa : QA} (h : qa ∈ dtQAs df) :
    ∃ c ∈ datetime_cols df,
      qa = ⟨dtdecompQText c, [c], QKind.dtdecomp⟩
      ∨ ∃ num ∈ numeric_cols df,
          qa = ⟨overtimeQText num c, [num, c], QKind.dtovertime⟩ := by
  unfold dtQAs at h
  obtain ⟨c, hc, hmem⟩ := List.mem_flatMap.mp h
  refine ⟨c, hc, ?_⟩
  rcases List.mem_cons.mp hmem with hm | hm
  · exact Or.inl hm
  · obtain ⟨num, hnum, rfl⟩ := List.mem_map.mp hm
    exact Or.inr ⟨num, hnum, rfl⟩

theorem mem_outlierQAs (o : Oracle) (df : Df) {qa : QA}
    (h : qa ∈ outlierQAs o df) :
    ∃ c ∈ numeric_cols df, ∃ n : Nat,
      qa = ⟨outlierQText n c, [c], QKind.outlierq⟩ := by
  unfold outlierQAs at h
  obtain ⟨c, hc, hval⟩ := List.mem_filterMap.mp h
  refine ⟨c, hc, ?_⟩
  by_cases hn : iqrOutlierCount (colValsNum df c)
      (o.quantile (colValsNum df c) (mkRat 1 4) - mkRat 3 2 * (o.quantile (colValsNum df c) (mkRat 3 4)
        - o.quantile (colValsNum df c) (mkRat 1 4)))
      (o.quantile (colValsNum df c) (mkRat 3 4) + mkRat 3 2 * (o.quantile (colValsNum df c) (mkRat 3 4)
        - o.quantile (colValsNum df c) (mkRat 1 4))) > 0
  · rw [if_pos hn] at hval
    injection hval with hv
    exact ⟨_, hv.symm⟩
  · rw [if_neg hn] at hval
    simp at hval

theorem mem_missingQAs (o : Oracle) (df : Df) {qa : QA}
    (h : qa ∈ missingQAs o df) :
    ∃ col ∈ df, qa = ⟨missingQText (o.fmt1 (missingFrac col.data * 100)) col.name,
      [col.name], QKind.missingq⟩ := by
  unfold missingQAs at h
  obtain ⟨col, hcol, hval⟩ := List.mem_filterMap.mp h
  by_cases hp : missingFrac col.data * 100 > 5
  · rw [if_pos hp] at hval
    injection hval with hv
    exact ⟨col, (List.mem_filter.mp hcol).1, hv.symm⟩
  · rw [if_neg hp] at hval
    simp at hval

theorem mem_dupQAs (df : Df) {qa : QA} (h : qa ∈ dupQAs df) :
    qa = ⟨dupQText, [], QKind.dupq⟩ := by
  unfold dupQAs at h
  by_cases hd : dupRowCount df > 0
  · rw [if_pos hd] at h
    simpa using h
  · rw [if_neg hd] at h
    simp at h

theorem mem_colNames (df : Df) {col : Column} (h : col ∈ df) :
    col.name ∈ colNames df :=
  List.mem_map.mpr ⟨col, h, rfl⟩

theorem corrLoop_length (o : Oracle) (df : Df) :
    ∀ (pairs : List (String × String)) (added maxq : Nat),
      (corrLoop o df pairs added maxq).length ≤ maxq - added := by
  intro pairs
  induction pairs with
  | nil =>
    intro added maxq
    simp [corrLoop]
  | cons p rest ih =>
    intro added maxq
    obtain ⟨c1, c2⟩ := p
    rw [corrLoop]
    by_cases he : (((colValsNum df c1).filterMap id).isEmpty
        || ((colValsNum df c2).filterMap id).isEmpty) = true
    · rw [if_pos he]
      exact ih added maxq
    · rw [if_neg he]
      rcases hcorr : pairCorr o df c1 c2 with _ | r
      · simp only [hcorr]
        exact ih added maxq
      · simp only [hcorr]
        by_cases hcap : (decide (|r| > mkRat 3 10) && decide (added < maxq)) = true
        · rw [if_pos hcap]
          have hlt : added < maxq := of_decide_eq_true ((Bool.and_eq_true _ _).mp hcap).2
          have := ih (added + 1) maxq
          simp only [List.length_cons]
          omega
        · rw [if_neg hcap]
          exact ih added maxq

theorem kind_corr_count (o : Oracle) (df : Df) (m : Nat) :
    (genQA o df m).countP (fun qa => qa.kind == QKind.corr)
      ≤ m := by
  unfold genQA
  repeat rw [List.countP_append]
  have h1 : (corrLoop o df (orderedPairs (numeric_cols df)) 0 m).countP
      (fun qa => qa.kind == QKind.corr) ≤ m := by
    have ha := List.countP_le_length (l := corrLoop o df (orderedPairs (numeric_cols df)) 0 m)
      (fun qa => qa.kind == QKind.corr)
    have hb := corrLoop_length o df (orderedPairs (numeric_cols df)) 0 m
    omega
  have h2 : (skewKurtQAs o df).countP (fun qa => qa.kind == QKind.corr) = 0 := by
    rw [List.countP_eq_zero]
    intro qa hqa
    obtain ⟨c, _, hc⟩ := mem_skewKurtQAs o df hqa
    rcases hc with ⟨_, rfl⟩ | ⟨_, rfl⟩ <;> simp
  have h3 : (catnumQAs df).countP (fun qa => qa.kind == QKind.corr) = 0 := by
    rw [List.countP_eq_zero]
    intro qa hqa
    obtain ⟨_, _, _, _, rfl⟩ := mem_catnumQAs df hqa
    simp
  have h4 : (catcatQAs df).countP (fun qa => qa.kind == QKind.corr) = 0 := by
    rw [List.countP_eq_zero]
    intro qa hqa
    obtain ⟨_, _, _, _, rfl⟩ := mem_catcatQAs df hqa
    simp
  have h5 : (dtQAs df).countP (fun qa => qa.kind == QKind.corr) = 0 := by
    rw [List.countP_eq_zero]
    intro qa hqa
    obtain ⟨c, _, hc⟩ := mem_dtQAs df hqa
    rcases hc with rfl | ⟨_, _, rfl⟩ <;> simp
  have h6 : (outlierQAs o df).countP (fun qa => qa.kind == QKind.corr) = 0 := by
    rw [List.countP_eq_zero]
    intro qa hqa
    obtain ⟨_, _, _, rfl⟩ := mem_outlierQAs o df hqa
    simp
  have h7 : (missingQAs o df).countP (fun qa => qa.kind == QKind.corr) = 0 := by
    rw [List.countP_eq_zero]
    intro qa hqa
    obtain ⟨_, _, rfl⟩ := mem_missingQAs o df hqa
    simp
  have h8 : (dupQAs df).countP (fun qa => qa.kind == QKind.corr) = 0 := by
    rw [List.countP_eq_zero]
    intro qa hqa
    rw [mem_dupQAs df hqa]
    simp
  omega

theorem dictInsert_of_fresh {d : List (String × String)} {k : String}
    (v : String) (h : k ∉ d.map Prod.fst) : dictInsert d k v = d ++ [(k, v)] := by
  induction d with
  | nil => rfl
  | cons kv rest ih =>
    obtain ⟨k', v'⟩ := kv
    have hne : ¬(k' = k) := by
      intro he
      exact h (by simp [he])
    rw [dictInsert, if_neg hne, ih (fun hm => h (by simp [hm]))]
    rfl

theorem dictFind_insert_ne {d : List (String × String)} {k t : String}
    (v : String) (h : k ≠ t) : dictFind (dictInsert d k v) t = dictFind d t := by
  induction d with
  | nil =>
    simp [dictInsert, dictFind, h]
  | cons kv rest ih =>
    obtain ⟨k', v'⟩ := kv
    by_cases hk : k' = k
    · rw [dictInsert, if_pos hk, dictFind, dictFind]
      subst hk
      rw [if_neg h, if_neg h]
    · rw [dictInsert, if_neg hk, dictFind, dictFind]
      by_cases ht : k' = t
      · rw [if_pos ht, if_pos ht]
      · rw [if_neg ht, if_neg ht]
        exact ih

theorem foldl_answerStep_fresh (o : Oracle) (df : Df) (alpha : Rat) :
    ∀ (qs : List String) (acc : List (String × String)),
      qs.Nodup → (∀ q ∈ qs, q ∉ acc.map Prod.fst) →
      qs.foldl (answerStep o df alpha) acc
        = acc ++ qs.filterMap (answerEntry o df alpha) := by
  intro qs
  induction qs with
  | nil =>
    intro acc _ _
    simp
  | cons q rest ih =>
    intro acc hnd hfresh
    rw [List.foldl_cons, List.filterMap_cons]
    have hq : q ∉ acc.map Prod.fst := hfresh q (by simp)
    have hnd' : rest.Nodup := (List.nodup_cons.mp hnd).2
    have hqrest : q ∉ rest := (List.nodup_cons.mp hnd).1
    rcases hproc : processQuestion o df alpha q with e | a
    · rw [answerStep, hproc]
      have hfresh' : ∀ q' ∈ rest, q' ∉ (dictInsert acc q
          ("Error answering question: " ++ e)).map Prod.fst := by
        intro q' hq'
        rw [dictInsert_of_fresh _ hq]
        simp only [List.map_append, List.mem_append]
        rintro (hm | hm)
        · exact hfresh q' (by simp [hq']) hm
        · simp at hm
          exact hqrest (hm ▸ hq')
      rw [ih _ hnd' hfresh', dictInsert_of_fresh _ hq, answerEntry, hproc]
      simp
    · rcases a with _ | a
      · rw [answerStep, hproc]
        rw [ih _ hnd' (fun q' hq' => hfresh q' (by simp [hq'])),
          answerEntry, hproc]
      · rw [answerStep, hproc]
        have hfresh' : ∀ q' ∈ rest, q' ∉ (dictInsert acc q a).map Prod.fst := by
          intro q' hq'
          rw [dictInsert_of_fresh _ hq]
          simp only [List.map_append, List.mem_append]
          rintro (hm | hm)
          · exact hfresh q' (by simp [hq']) hm
          · simp at hm
            exact hqrest (hm ▸ hq')
        rw [ih _ hnd' hfresh', dictInsert_of_fresh _ hq, answerEntry, hproc]
        simp

theorem foldl_answerStep_skipped (o : Oracle) (df : Df) (alpha : Rat)
    {t : String} (hproc : processQuestion o df alpha t = Except.ok Option.none) :
    ∀ (qs : List String) (acc : List (String × String)),
      dictFind acc t = Option.none →
      dictFind (qs.foldl (answerStep o df alpha) acc) t = Option.none := by
  intro qs
  induction qs with
  | nil =>
    intro acc hacc
    exact hacc
  | cons q rest ih =>
    intro acc hacc
    rw [List.foldl_cons]
    apply ih
    rcases hq : processQuestion o df alpha q with e | a
    · have hne : q ≠ t := by
        intro he
        rw [he, hproc] at hq
        cases hq
      rw [answerStep, hq, dictFind_insert_ne _ hne]
      exact hacc
    · rcases a with _ | a
      · rw [answerStep, hq]
        exact hacc
      · have hne : q ≠ t := by
          intro he
          rw [he, hproc] at hq
          cases hq
        rw [answerStep, hq, dictFind_insert_ne _ hne]
        exact hacc

theorem except_bind_ok {α β : Type} (a : α) (f : α → Except String β) :
    (Except.ok a >>= f) = f a := rfl

/-! ## Claim theorems -/

/-- C5: `_is_normal` returns false for every sample with fewer than 3
values; for samples of at least 3 values it runs the normality test on
the subsample of size `min 500 (length series)` drawn by
`series.sample` and returns true iff the resulting p-value is strictly
greater than 0.05. -/
theorem C5_is_normal_contract (o : Oracle) (series : List Rat) :
    (series.length < 3 → is_normal o series = false)
    ∧ (3 ≤ series.length →
        (is_normal o series = true ↔
          o.shapiroP (o.sample series (min 500 series.length)) > mkRat 1 20)) := by
  constructor
  · intro h
    rw [is_normal, if_pos h]
  · intro h
    rw [is_normal, if_neg (by omega)]
    exact decide_eq_true_iff

theorem C5_witness :
    is_normal oracle0 [1] = false
    ∧ (is_normal oracle0 [1, 2, 3] = true ↔
        oracle0.shapiroP (oracle0.sample [1, 2, 3]
          (min 500 ([1, 2, 3] : List Rat).length)) > mkRat 1 20) :=
  ⟨(C5_is_normal_contract oracle0 [1]).1 (by decide),
   (C5_is_normal_contract oracle0 [1, 2, 3]).2 (by decide)⟩

/-- C4: in `test_numeric_categorical` the parametric branch is chosen
exactly when every group passes `_is_normal`: with exactly 2 groups the
result's test field is `T-TEST` when both groups are normal and
`MANN-WHITNEY` otherwise; with 3 or more groups it is `ANOVA` when all
groups are normal and `KRUSKAL` otherwise. -/
theorem C4_branch_selection (o : Oracle) (df : Df) (catCol numCol : String)
    (alpha : Rat) (ccol ncol : Column) (nvals : List (Option Rat))
    (hcat : dfGet df catCol = Except.ok ccol)
    (hnum : dfGet df numCol = Except.ok ncol)
    (hnv : numData ncol.data = Option.some nvals)
    (hlen : 2 ≤ (groupsOf (cellKeys ccol.data) nvals).length) :
    testField (test_numeric_categorical o df catCol numCol alpha)
      = Option.some (PyVal.s
          (if (groupsOf (cellKeys ccol.data) nvals).length = 2 then
            (if (groupsOf (cellKeys ccol.data) nvals).all (fun g => is_normal o g)
              then "T-TEST" else "MANN-WHITNEY")
          else
            (if (groupsOf (cellKeys ccol.data) nvals).all (fun g => is_normal o g)
              then "ANOVA" else "KRUSKAL"))) := by
  have hup1 : upperStr "t-test" = "T-TEST" := by decide
  have hup2 : upperStr "mann-whitney" = "MANN-WHITNEY" := by decide
  have hup3 : upperStr "anova" = "ANOVA" := by decide
  have hup4 : upperStr "kruskal" = "KRUSKAL" := by decide
  rcases hg : groupsOf (cellKeys ccol.data) nvals with _ | ⟨g1, rest⟩
  · rw [hg] at hlen
    simp at hlen
  rcases rest with _ | ⟨g2, rest2⟩
  · rw [hg] at hlen
    simp at hlen
  rcases rest2 with _ | ⟨g3, rest3⟩
  · by_cases hall : ([g1, g2].all (fun g => is_normal o g)) = true
    · simp only [test_numeric_categorical, hcat, hnum, except_bind_ok, hnv, hg]
      simp [testField, dictGet, hall, hup1]
    · simp only [test_numeric_categorical, hcat, hnum, except_bind_ok, hnv, hg]
      simp [testField, dictGet, hall, hup2]
  · by_cases hall : ((g1 :: g2 :: g3 :: rest3).all (fun g => is_normal o g)) = true
    · simp only [test_numeric_categorical, hcat, hnum, except_bind_ok, hnv, hg]
      simp [testField, dictGet, hall, hup3]
    · simp only [test_numeric_categorical, hcat, hnum, except_bind_ok, hnv, hg]
      simp [testField, dictGet, hall, hup4]

/-- C6: `answer_questions` never propagates an exception out of the
top-level call (in the embedding it is a total function built from the
per-question `try` body), and the produced mapping is exactly the
per-question outcomes: an exception while answering one question is
recorded as `Error answering question: <message>` for that question
only, a skipped question produces no entry, and every other question's
outcome is unaffected. -/
theorem C6_error_capture (o : Oracle) (df : Df) (alpha : Rat)
    (qs : List String) (hnd : qs.Nodup) :
    answer_questions o df qs alpha = qs.filterMap (answerEntry o df alpha) := by
  unfold answer_questions
  simpa using foldl_answerStep_fresh o df alpha qs [] hnd (by simp)

theorem C6_witness :
    answer_questions oracle0 dfMissingPair
        ["Is there a correlation between 'a' and 'b'?", catnumQText "g" "v"]
        (mkRat 1 20)
      = ["Is there a correlation between 'a' and 'b'?",
          catnumQText "g" "v"].filterMap
          (answerEntry oracle0 dfMissingPair (mkRat 1 20)) :=
  C6_error_capture oracle0 dfMissingPair (mkRat 1 20)
    ["Is there a correlation between 'a' and 'b'?", catnumQText "g" "v"]
    (by decide)

/-- C8: `generate_questions` emits at most `max_corr_questions`
correlation questions, and every emitted correlation question comes
from a pair of numeric columns, taken in column order, whose computed
correlation coefficient (by the method the generator selected) is
non-null with absolute value above 0.3. -/
theorem C8_corr_cap (o : Oracle) (df : Df) (m : Nat) :
    (genQA o df m).countP (fun qa => qa.kind == QKind.corr) ≤ m
    ∧ ∀ qa ∈ genQA o df m, qa.kind = QKind.corr →
        ∃ c1 c2 r, (c1, c2) ∈ orderedPairs (numeric_cols df)
          ∧ qa.refs = [c1, c2]
          ∧ pairCorr o df c1 c2 = Option.some r ∧ |r| > mkRat 3 10 := by
  refine ⟨kind_corr_count o df m, ?_⟩
  intro qa hqa hkind
  unfold genQA at hqa
  rcases List.mem_append.mp hqa with h | h
  · rcases List.mem_append.mp h with h | h
    · rcases List.mem_append.mp h with h | h
      · rcases List.mem_append.mp h with h | h
        · rcases List.mem_append.mp h with h | h
          · rcases List.mem_append.mp h with h | h
            · rcases List.mem_append.mp h with h | h
              · obtain ⟨c1, c2, r, hpair, hcorr, hr, rfl⟩ :=
                  mem_corrLoop o df _ 0 m h
                exact ⟨c1, c2, r, hpair, rfl, hcorr, hr⟩
              · obtain ⟨c, _, hc⟩ := mem_skewKurtQAs o df h
                rcases hc with ⟨_, rfl⟩ | ⟨_, rfl⟩ <;> simp at hkind
            · obtain ⟨_, _, _, _, rfl⟩ := mem_catnumQAs df h
              simp at hkind
          · obtain ⟨_, _, _, _, rfl⟩ := mem_catcatQAs df h
            simp at hkind
        · obtain ⟨c, _, hc⟩ := mem_dtQAs df h
          rcases hc with rfl | ⟨_, _, rfl⟩ <;> simp at hkind
      · obtain ⟨_, _, _, rfl⟩ := mem_outlierQAs o df h
        simp at hkind
    · obtain ⟨_, _, rfl⟩ := mem_missingQAs o df h
      simp at hkind
  · rw [mem_dupQAs df h] at hkind
    simp at hkind

theorem C8_witness :
    (genQA oracle0 dfShortPair 5).countP (fun qa => qa.kind == QKind.corr) ≤ 5
    ∧ ∃ c1 c2 r, (c1, c2) ∈ orderedPairs (numeric_cols dfShortPair)
        ∧ (QA.mk (corrQText "moderate" "Pearson" "2.00" "x" "y") ["x", "y"]
            QKind.corr).refs = [c1, c2]
        ∧ pairCorr oracle0 dfShortPair c1 c2 = Option.some r
        ∧ |r| > mkRat 3 10 :=
  ⟨(C8_corr_cap oracle0 dfShortPair 5).1,
   (C8_corr_cap oracle0 dfShortPair 5).2
     (QA.mk (corrQText "moderate" "Pearson" "2.00" "x" "y") ["x", "y"] QKind.corr)
     (by decide) rfl⟩

/-- C1 counterexample: with one category (one group), the dispatched
group-difference question is not skipped — `test_numeric_categorical`'s
skip string is passed through `format_test_result`'s non-dict fallback
and recorded in the answers mapping as the answer string. -/
theorem C1_counterexample :
    answer_questions oracle0 dfOneGroup [catnumQText "g" "v"] (mkRat 1 20)
      = [(catnumQText "g" "v", "Not enough groups for hypothesis testing.")] :=
  rfl

/-- C1 amended: when grouping the numeric column by the categorical
column yields fewer than 2 groups (counting groups emptied by
`dropna`), the group-difference question is not dropped from the
mapping: it receives the surfaced answer string
`Not enough groups for hypothesis testing.` (provided the two quoted
column names are quote-free, non-empty, and do not themselves inject an
earlier dispatch keyword or a skip-pattern word into the question
text). -/
theorem C1_insufficient_groups_surfaced (o : Oracle) (df : Df) (alpha : Rat)
    (cat num : String) (ccol ncol : Column) (nvals : List (Option Rat))
    (hcatq : noQuote cat) (hcat' : cat ≠ "")
    (hnumq : noQuote num) (hnum' : num ≠ "")
    (hskip : (skipPatterns.any
      (fun w => wbMatch w (lowerStr (catnumQText cat num)))) = false)
    (hc1 : hasSub "correlation" (lowerStr (catnumQText cat num)) = false)
    (hc2 : hasSub "skew" (lowerStr (catnumQText cat num)) = false)
    (hc3 : hasSub "kurtosis" (lowerStr (catnumQText cat num)) = false)
    (hc4 : hasSub "outlier" (lowerStr (catnumQText cat num)) = false)
    (hgn : dfGet df num = Except.ok ncol) (hnn : isNumericCol ncol = true)
    (hgc : dfGet df cat = Except.ok ccol) (hcc : isCatCol ccol = true)
    (hnv : numData ncol.data = Option.some nvals)
    (hlen : (groupsOf (cellKeys ccol.data) nvals).length < 2) :
    processQuestion o df alpha (catnumQText cat num)
      = Except.ok (Option.some "Not enough groups for hypothesis testing.")
    ∧ answer_questions o df [catnumQText cat num] alpha
      = [(catnumQText cat num, "Not enough groups for hypothesis testing.")] := by
  have hcols := extract_catnumQText cat num hcatq hcat' hnumq hnum'
  have hql : lowerStr (catnumQText cat num)
      = lowerStr "Do different " ++ lowerStr (qn cat)
        ++ lowerStr " categories show significant differences in "
        ++ lowerStr (qn num)
        ++ lowerStr " means (t-test/ANOVA) or medians (Kruskal-Wallis) depending on normality?" := by
    rw [catnumQText, lowerStr_append, lowerStr_append, lowerStr_append,
      lowerStr_append]
  have hdiff : hasSub "different" (lowerStr (catnumQText cat num)) = true := by
    rw [hql]
    apply hasSub_append_left
    apply hasSub_append_left
    apply hasSub_append_left
    apply hasSub_append_left
    decide
  have htnc : test_numeric_categorical o df cat num alpha
      = Except.ok (Sum.inl "Not enough groups for hypothesis testing.") := by
    rcases hg : groupsOf (cellKeys ccol.data) nvals with _ | ⟨g1, rest⟩
    · simp only [test_numeric_categorical, hgc, hgn, except_bind_ok, hnv, hg]
    · rcases rest with _ | ⟨g2, rest2⟩
      · simp only [test_numeric_categorical, hgc, hgn, except_bind_ok, hnv, hg]
      · rw [hg] at hlen
        simp at hlen
        omega
  have hp : processQuestion o df alpha (catnumQText cat num)
      = Except.ok (Option.some "Not enough groups for hypothesis testing.") := by
    simp [processQuestion, hskip, hcols, hc1, hc2, hc3, hc4, hdiff, hgn, hnn,
      hgc, hcc, htnc, format_test_result]
  refine ⟨hp, ?_⟩
  unfold answer_questions
  simp [answerStep, hp, dictInsert]

theorem C1_witness :
    processQuestion oracle0 dfOneGroup (mkRat 1 20) (catnumQText "g" "v")
      = Except.ok (Option.some "Not enough groups for hypothesis testing.")
    ∧ answer_questions oracle0 dfOneGroup [catnumQText "g" "v"] (mkRat 1 20)
      = [(catnumQText "g" "v", "Not enough groups for hypothesis testing.")] :=
  C1_insufficient_groups_surfaced oracle0 dfOneGroup (mkRat 1 20) "g" "v"
    ⟨"g", ColData.cat [Option.some "a", Option.some "a"]⟩
    ⟨"v", ColData.num [Option.some 1, Option.some 2]⟩
    [Option.some 1, Option.some 2]
    (by decide) (by decide) (by decide) (by decide)
    (by decide) (by decide) (by decide) (by decide) (by decide)
    (by rfl) (by rfl) (by rfl) (by rfl) (by rfl) (by decide)

/-- C10 counterexample: a datetime/numeric trend question is not always
silently skipped — a numeric column whose name contains `duplicate`
routes the question into the duplicate branch (which has no arity
check), so the question receives the answer
`Dataset contains 0 duplicate rows.`. -/
theorem C10_counterexample :
    overtimeQText "duplicates" "date" ∈ generate_questions oracle0 dfDupName 5
    ∧ answer_questions oracle0 dfDupName
        [overtimeQText "duplicates" "date"] (mkRat 1 20)
      = [(overtimeQText "duplicates" "date",
          "Dataset contains 0 duplicate rows.")] := by
  refine ⟨by decide, by rfl⟩

/-- C10 amended: the Mann-Kendall trend question quotes two column
names and contains the keyword `trend`; since the trend branch requires
exactly one quoted column and no other branch matches, it produces no
entry in the answers mapping — provided the lowercased question text
matches no skip pattern and contains no other dispatch keyword (in
particular, neither column name contains `duplicate`, whose branch has
no arity check and would answer the question). -/
theorem C10_trend_question_skipped (o : Oracle) (df : Df) (alpha : Rat)
    (num c : String)
    (hnumq : noQuote num) (hnum' : num ≠ "") (hcq : noQuote c) (hc' : c ≠ "")
    (hskip : (skipPatterns.any
      (fun w => wbMatch w (lowerStr (overtimeQText num c)))) = false)
    (h1 : hasSub "correlation" (lowerStr (overtimeQText num c)) = false)
    (h2 : hasSub "skew" (lowerStr (overtimeQText num c)) = false)
    (h3 : hasSub "kurtosis" (lowerStr (overtimeQText num c)) = false)
    (h4 : hasSub "outlier" (lowerStr (overtimeQText num c)) = false)
    (h5 : hasSub "different" (lowerStr (overtimeQText num c)) = false)
    (h6 : hasSub "association" (lowerStr (overtimeQText num c)) = false)
    (h7 : hasSub "missing" (lowerStr (overtimeQText num c)) = false)
    (h8 : hasSub "duplicate" (lowerStr (overtimeQText num c)) = false) :
    extract_columns_from_question (overtimeQText num c) = [num, c]
    ∧ hasSub "trend" (lowerStr (overtimeQText num c)) = true
    ∧ processQuestion o df alpha (overtimeQText num c) = Except.ok Option.none
    ∧ ∀ qs : List String,
        dictFind (answer_questions o df qs alpha) (overtimeQText num c)
          = Option.none := by
  have hcols := extract_overtimeQText num c hnumq hnum' hcq hc'
  have hql : lowerStr (overtimeQText num c)
      = lowerStr "Does " ++ lowerStr (qn num)
        ++ lowerStr " change significantly over time based on "
        ++ lowerStr (qn c)
        ++ lowerStr " (trend analysis, Mann-Kendall test)?" := by
    rw [overtimeQText, lowerStr_append, lowerStr_append, lowerStr_append,
      lowerStr_append]
  have htrend : hasSub "trend" (lowerStr (overtimeQText num c)) = true := by
    rw [hql]
    apply hasSub_append_right
    decide
  have hp : processQuestion o df alpha (overtimeQText num c)
      = Except.ok Option.none := by
    simp [processQuestion, hskip, hcols, h1, h2, h3, h4, h5, h6, h7, h8]
  refine ⟨hcols, htrend, hp, ?_⟩
  intro qs
  unfold answer_questions
  exact foldl_answerStep_skipped o df alpha hp qs [] rfl

theorem C10_witness :
    extract_columns_from_question (overtimeQText "value" "date")
        = ["value", "date"]
    ∧ hasSub "trend" (lowerStr (overtimeQText "value" "date")) = true
    ∧ processQuestion oracle0 dfTimeValue (mkRat 1 20)
        (overtimeQText "value" "date") = Except.ok Option.none
    ∧ dictFind (answer_questions oracle0 dfTimeValue
        [overtimeQText "value" "date"] (mkRat 1 20))
        (overtimeQText "value" "date") = Option.none := by
  have h := C10_trend_question_skipped oracle0 dfTimeValue (mkRat 1 20)
    "value" "date" (by decide) (by decide) (by decide) (by decide)
    (by decide) (by decide) (by decide) (by decide) (by decide)
    (by decide) (by decide) (by decide) (by decide)
  exact ⟨h.1, h.2.1, h.2.2.1, h.2.2.2 [overtimeQText "value" "date"]⟩

/-- C7 counterexample: the empty string is a legal pandas column name
containing no single-quote character, yet the skew question generated
for it renders as `'' is highly skewed ...`, in which the extraction
regex `'([^']+)'` finds no match (the `+` requires at least one
character) — so extraction does not recover the referenced name. -/
theorem C7_counterexample :
    (QA.mk (skewQText "" "2.00") [""] QKind.skewq) ∈ genQA oracle0 dfEmptyName 5
    ∧ skewQText "" "2.00" ∈ generate_questions oracle0 dfEmptyName 5
    ∧ extract_columns_from_question (skewQText "" "2.00") = []
    ∧ extract_columns_from_question (skewQText "" "2.00")
        ≠ (QA.mk (skewQText "" "2.00") [""] QKind.skewq).refs := by
  refine ⟨by decide, by decide, by decide, by decide⟩

/-- C7 amended: for datasets whose column names are non-empty and
contain no single-quote character (and whose formatted numbers contain
no quote, as `%.2f`/`%.1f` renderings never do), every question emitted
by `generate_questions` references only dataset column names inside
single quotes, and `extract_columns_from_question` recovers exactly the
referenced names.  (With an empty column name the regex's
one-or-more-characters requirement breaks the round trip.) -/
theorem C7_roundtrip_amended (o : Oracle) (df : Df) (m : Nat)
    (hnames : ∀ n ∈ colNames df, noQuote n ∧ n ≠ "")
    (hfmt2 : ∀ x : Rat, noQuote (o.fmt2 x))
    (hfmt1 : ∀ x : Rat, noQuote (o.fmt1 x)) :
    ∀ qa ∈ genQA o df m,
      extract_columns_from_question qa.text = qa.refs
      ∧ ∀ r ∈ qa.refs, r ∈ colNames df := by
  intro qa hqa
  unfold genQA at hqa
  rcases List.mem_append.mp hqa with h | h
  · rcases List.mem_append.mp h with h | h
    · rcases List.mem_append.mp h with h | h
      · rcases List.mem_append.mp h with h | h
        · rcases List.mem_append.mp h with h | h
          · rcases List.mem_append.mp h with h | h
            · rcases List.mem_append.mp h with h | h
              · -- correlation questions
                obtain ⟨c1, c2, r, hpair, _, _, rfl⟩ := mem_corrLoop o df _ 0 m h
                obtain ⟨hp1, hp2⟩ := mem_orderedPairs (numeric_cols df) hpair
                have h1 := hnames c1 (mem_numeric_cols df hp1)
                have h2 := hnames c2 (mem_numeric_cols df hp2)
                have hst : noQuote (if |r| > mkRat 7 10 then "strong" else "moderate") := by
                  split <;> decide
                have hme : noQuote (pairMethod o df c1 c2) := by
                  unfold pairMethod
                  split <;> decide
                refine ⟨extract_corrQText _ _ _ c1 c2 hst hme (hfmt2 r)
                  h1.1 h1.2 h2.1 h2.2, ?_⟩
                intro x hx
                rcases List.mem_pair.mp hx with rfl | rfl
                · exact mem_numeric_cols df hp1
                · exact mem_numeric_cols df hp2
              · -- skewness / kurtosis questions
                obtain ⟨c, hc, hcase⟩ := mem_skewKurtQAs o df h
                have hn := hnames c (mem_numeric_cols df hc)
                rcases hcase with ⟨_, rfl⟩ | ⟨_, rfl⟩
                · refine ⟨extract_skewQText c _ hn.1 hn.2 (hfmt2 _), ?_⟩
                  intro x hx
                  rw [List.mem_singleton.mp hx]
                  exact mem_numeric_cols df hc
                · refine ⟨extract_kurtQText c _ hn.1 hn.2 (hfmt2 _), ?_⟩
                  intro x hx
                  rw [List.mem_singleton.mp hx]
                  exact mem_numeric_cols df hc
            · -- categorical/numeric group-difference questions
              obtain ⟨cat, hcat, num, hnum, rfl⟩ := mem_catnumQAs df h
              have h1 := hnames cat (mem_cat_cols df hcat)
              have h2 := hnames num (mem_numeric_cols df hnum)
              refine ⟨extract_catnumQText cat num h1.1 h1.2 h2.1 h2.2, ?_⟩
              intro x hx
              rcases List.mem_pair.mp hx with rfl | rfl
              · exact mem_cat_cols df hcat
              · exact mem_numeric_cols df hnum
          · -- categorical/categorical association questions
            obtain ⟨c1, hc1, c2, hc2, rfl⟩ := mem_catcatQAs df h
            have h1 := hnames c1 (mem_cat_cols df hc1)
            have h2 := hnames c2 (mem_cat_cols df hc2)
            refine ⟨extract_catcatQText c1 c2 h1.1 h1.2 h2.1 h2.2, ?_⟩
            intro x hx
            rcases List.mem_pair.mp hx with rfl | rfl
            · exact mem_cat_cols df hc1
            · exact mem_cat_cols df hc2
        · -- datetime questions
          obtain ⟨c, hc, hcase⟩ := mem_dtQAs df h
          have hn := hnames c (mem_datetime_cols df hc)
          rcases hcase with rfl | ⟨num, hnum, rfl⟩
          · refine ⟨extract_dtdecompQText c hn.1 hn.2, ?_⟩
            intro x hx
            rw [List.mem_singleton.mp hx]
            exact mem_datetime_cols df hc
          · have h2 := hnames num (mem_numeric_cols df hnum)
            refine ⟨extract_overtimeQText num c h2.1 h2.2 hn.1 hn.2, ?_⟩
            intro x hx
            rcases List.mem_pair.mp hx with rfl | rfl
            · exact mem_numeric_cols df hnum
            · exact mem_datetime_cols df hc
      · -- outlier-impact questions
        obtain ⟨c, hc, n, rfl⟩ := mem_outlierQAs o df h
        have hn := hnames c (mem_numeric_cols df hc)
        refine ⟨extract_outlierQText n c hn.1 hn.2, ?_⟩
        intro x hx
        rw [List.mem_singleton.mp hx]
        exact mem_numeric_cols df hc
    · -- missing-data questions
      obtain ⟨col, hcol, rfl⟩ := mem_missingQAs o df h
      have hn := hnames col.name (mem_colNames df hcol)
      refine ⟨extract_missingQText _ col.name (hfmt1 _) hn.1 hn.2, ?_⟩
      intro x hx
      rw [List.mem_singleton.mp hx]
      exact mem_colNames df hcol
  · -- the duplicate-rows question references no columns
    rw [mem_dupQAs df h]
    refine ⟨extract_dupQText, ?_⟩
    intro x hx
    simp at hx

theorem C7_witness :
    extract_columns_from_question
        (QA.mk (corrQText "moderate" "Pearson" "2.00" "x" "y") ["x", "y"]
          QKind.corr).text
      = (QA.mk (corrQText "moderate" "Pearson" "2.00" "x" "y") ["x", "y"]
          QKind.corr).refs
    ∧ ∀ r ∈ (QA.mk (corrQText "moderate" "Pearson" "2.00" "x" "y") ["x", "y"]
        QKind.corr).refs, r ∈ colNames dfShortPair :=
  C7_roundtrip_amended oracle0 dfShortPair 5
    (by decide)
    (fun _ => show noQuote "2.00" by decide)
    (fun _ => show noQuote "50.0" by decide)
    (QA.mk (corrQText "moderate" "Pearson" "2.00" "x" "y") ["x", "y"] QKind.corr)
    (by decide)

/-- C2: the claim says the rendered Conclusion line carries the
TestResult's significance text.  In the code `format_test_result` reads
key `"result"`, which no test dict contains, so the Conclusion line is
always `N/A` even though the dict's `"significance"` entry holds the
significance text ("Significant" here, since p = 1/100 < alpha = 1/20).
Concrete evaluation of the code at the failing input. -/
theorem C2_conclusion_is_na :
    answer_questions oracle0 dfTwoGroups [catnumQText "g" "v"] (mkRat 1 20)
        = [(catnumQText "g" "v",
            "Test: MANN-WHITNEY\nH₀: H₀: The distribution of 'v' is the same across the two groups in 'g'.\nH₁: H₁: The distribution of 'v' differs between the two groups in 'g'.\nConclusion: N/A")]
    ∧ (resultDict (test_numeric_categorical oracle0 dfTwoGroups "g" "v" (mkRat 1 20))).map
        (fun d => dictGet d "significance")
      = Option.some (Option.some (PyVal.s "Significant")) :=
  ⟨rfl, rfl⟩

/-- C3 counterexample: with one missing value in column `a` and none in
column `b`, the independently dropped series have lengths 2 and 3, and
`test_numeric_numeric` raises (the correlation routine rejects
unequal-length inputs) instead of returning a TestResult. -/
theorem C3_counterexample :
    test_numeric_numeric oracle0 dfMissingPair "a" "b" (mkRat 1 20)
      = Except.error "all the input array dimensions must match exactly" :=
  rfl

/-- C3 amended: `test_numeric_numeric` drops missing values
independently per column and returns a TestResult dict — never a skip
signal — provided the two dropped series end up with the same length
(at least 2); when the missing counts differ the underlying correlation
routine raises and the exception escapes `test_numeric_numeric` (to be
caught per-question by `answer_questions`). -/
theorem C3_equal_length_amended (o : Oracle) (df : Df) (col1 col2 : String)
    (alpha : Rat) (c1 c2 : Column) (v1 v2 : List (Option Rat))
    (h1 : dfGet df col1 = Except.ok c1) (h2 : dfGet df col2 = Except.ok c2)
    (hv1 : numData c1.data = Option.some v1)
    (hv2 : numData c2.data = Option.some v2)
    (hlen : (v1.filterMap id).length = (v2.filterMap id).length)
    (hlen2 : 2 ≤ (v1.filterMap id).length) :
    isDictResult (test_numeric_numeric o df col1 col2 alpha) = true := by
  simp only [test_numeric_numeric, h1, h2, except_bind_ok, hv1, hv2]
  by_cases hn : (is_normal o (v1.filterMap id) && is_normal o (v2.filterMap id)) = true
  · rw [if_pos hn]
    rw [pearsonrModel, if_neg (by omega), if_neg (by omega)]
    rfl
  · rw [if_neg hn]
    rw [spearmanrModel, if_neg (by omega)]
    rfl

theorem C3_witness :
    isDictResult (test_numeric_numeric oracle0 dfCleanPair "a" "b" (mkRat 1 20)) = true :=
  C3_equal_length_amended oracle0 dfCleanPair "a" "b" (mkRat 1 20)
    ⟨"a", ColData.num [Option.some 1, Option.some 2, Option.some 3, Option.some 4]⟩
    ⟨"b", ColData.num [Option.some 2, Option.some 4, Option.some 6, Option.some 9]⟩
    [Option.some 1, Option.some 2, Option.some 3, Option.some 4]
    [Option.some 2, Option.some 4, Option.some 6, Option.some 9]
    (by rfl) (by rfl) (by rfl) (by rfl) (by decide) (by decide)

/-- C9 counterexample: for two numeric columns with 2 values each the
generator's inline check counts both as normal and names Pearson in the
emitted question, while `_is_normal` (the NormalityOracle) returns
false for any sample shorter than 3 — so the generator's decision is
not equivalent to the oracle's. -/
theorem C9_counterexample :
    pairMethod oracle0 dfShortPair "x" "y" = "Pearson"
    ∧ is_normal oracle0 ((colValsNum dfShortPair "x").filterMap id) = false
    ∧ corrQText "moderate" "Pearson" "2.00" "x" "y"
        ∈ generate_questions oracle0 dfShortPair 5 := by
  refine ⟨rfl, rfl, ?_⟩
  decide

/-- C9 amended: the generator's inline normality decision coincides
with `_is_normal` on every dropped sample of more than 3 values; for
samples of at most 3 values the generator always treats the column as
normal (its p-value defaults to 1), whereas `_is_normal` returns false
below 3 values and actually runs the test at exactly 3. -/
theorem C9_normality_equivalence_amended (o : Oracle) (vals : List (Option Rat)) :
    (3 < (vals.filterMap id).length →
      genColNormal o vals = is_normal o (vals.filterMap id))
    ∧ ((vals.filterMap id).length ≤ 3 → genColNormal o vals = true) := by
  constructor
  · intro h
    simp only [genColNormal, is_normal]
    rw [if_pos h, if_neg (by omega)]
  · intro h
    simp only [genColNormal]
    rw [if_neg (by omega)]
    decide

theorem C9_witness :
    genColNormal oracle0 [Option.some 1, Option.some 2, Option.some 3,
        Option.some 4, Option.some 5]
      = is_normal oracle0 [1, 2, 3, 4, 5]
    ∧ genColNormal oracle0 [Option.some 1, Option.some 2] = true :=
  ⟨(C9_normality_equivalence_amended oracle0 [Option.some 1, Option.some 2,
      Option.some 3, Option.some 4, Option.some 5]).1 (by decide),
   (C9_normality_equivalence_amended oracle0
      [Option.some 1, Option.some 2]).2 (by decide)⟩

theorem C4_witness :
    testField (test_numeric_categorical oracle0 dfTwoGroups "g" "v" (mkRat 1 20))
      = Option.some (PyVal.s
          (if (groupsOf (cellKeys (ColData.cat [Option.some "a", Option.some "b"]))
              [Option.some 1, Option.some 2]).length = 2 then
            (if (groupsOf (cellKeys (ColData.cat [Option.some "a", Option.some "b"]))
                [Option.some 1, Option.some 2]).all (fun g => is_normal oracle0 g)
              then "T-TEST" else "MANN-WHITNEY")
          else
            (if (groupsOf (cellKeys (ColData.cat [Option.some "a", Option.some "b"]))
                [Option.some 1, Option.some 2]).all (fun g => is_normal oracle0 g)
              then "ANOVA" else "KRUSKAL"))) :=
  C4_branch_selection oracle0 dfTwoGroups "g" "v" (mkRat 1 20)
    ⟨"g", ColData.cat [Option.some "a", Option.some "b"]⟩
    ⟨"v", ColData.num [Option.some 1, Option.some 2]⟩
    [Option.some 1, Option.some 2] (by rfl) (by rfl) (by rfl) (by decide)

end AutoStat
